import Mathlib

/-!
Verification of the posting-bot repository: a shallow embedding of
`src/services/gemini_service.py`, `src/services/naver_service.py` and
`src/core/posting_engine.py`, with theorems settling the frozen claims.

Text is modelled as `List Char` (Python strings are sequences of code
points, and all the operations used by the code — `strip`, `split`,
`startswith`, slicing, `replace`, the `in` substring test — are
per-code-point).  Real time (for the rate limiter) is modelled by `ℚ`,
with `time.sleep(s)` advancing the clock by exactly `s` and no time
passing between consecutive statements.
-/

/-- Python `str` modelled as a list of code points. -/
abbrev PyStr := List Char

/-- Whitespace as recognised by Python's `str.strip()` / `\s`
(restricted to the ASCII whitespace characters, which is all the
repository's data ever contains). -/
def pySpace (c : Char) : Bool :=
  c = ' ' || c = '\t' || c = '\n' || c = '\r' || c = '\x0b' || c = '\x0c'

/-- Python `str.strip()`: drop leading and trailing whitespace. -/
def pyStrip (s : PyStr) : PyStr :=
  ((s.dropWhile pySpace).reverse.dropWhile pySpace).reverse

/-- Python `str.split(sep)` for a one-character separator: splits on every
occurrence, keeping empty pieces (so the result is always non-empty). -/
def pySplit (sep : Char) : PyStr → List PyStr
  | [] => [[]]
  | c :: cs =>
    if c = sep then [] :: pySplit sep cs
    else
      match pySplit sep cs with
      | [] => [[c]]
      | h :: t => (c :: h) :: t

/-- Python `needle in haystack` (substring containment). -/
def pyContains (haystack needle : PyStr) : Bool :=
  haystack.tails.any (fun t => needle.isPrefixOf t)

/-- Python `str.startswith`. -/
def pyStartswith (s pre : PyStr) : Bool :=
  pre.isPrefixOf s

/-- Python `str.lower()` (ASCII case folding, which is what the error
keywords in the repository need). -/
def pyLower (s : PyStr) : PyStr :=
  s.map Char.toLower

theorem pySplit_ne_nil (sep : Char) (s : PyStr) : pySplit sep s ≠ [] := by
  induction s with
  | nil => simp [pySplit]
  | cons c cs ih =>
    simp only [pySplit]
    split
    · simp
    · match h : pySplit sep cs with
      | [] => exact absurd h ih
      | x :: xs => simp

theorem dropWhile_cons_of_neg {p : Char → Bool} {a : Char} {l : PyStr} (h : p a = false) :
    List.dropWhile p (a :: l) = a :: l := by
  simp [List.dropWhile_cons, h]

theorem head_neg_of_dropWhile_eq {p : Char → Bool} {hd : Char} {tl : PyStr}
    (h : List.dropWhile p (hd :: tl) = hd :: tl) : p hd = false := by
  by_contra hc
  have hc' : p hd = true := by revert hc; cases p hd <;> simp
  rw [List.dropWhile_cons, if_pos hc'] at h
  have hle : (List.dropWhile p tl).length ≤ tl.length := (List.dropWhile_suffix p).length_le
  rw [h] at hle
  simp at hle

/-- A string on which `strip()` is the identity is untouched by both the
leading and the trailing whitespace removal. -/
theorem pyStrip_eq_self_parts {T : PyStr} (h : pyStrip T = T) :
    T.dropWhile pySpace = T ∧ T.reverse.dropWhile pySpace = T.reverse := by
  have hsa : T.dropWhile pySpace <:+ T := List.dropWhile_suffix pySpace
  have hsb : (T.dropWhile pySpace).reverse.dropWhile pySpace <:+ (T.dropWhile pySpace).reverse :=
    List.dropWhile_suffix pySpace
  have hb : ((T.dropWhile pySpace).reverse.dropWhile pySpace).reverse = T := h
  have l1 : (T.dropWhile pySpace).length ≤ T.length := hsa.length_le
  have l2 : ((T.dropWhile pySpace).reverse.dropWhile pySpace).length
      ≤ (T.dropWhile pySpace).length := by
    have := hsb.length_le
    simpa using this
  have l3 : ((T.dropWhile pySpace).reverse.dropWhile pySpace).length = T.length := by
    have := congrArg List.length hb
    simpa using this
  have l4 : (T.dropWhile pySpace).length = T.length := le_antisymm l1 (by omega)
  have haT : T.dropWhile pySpace = T := hsa.eq_of_length l4
  refine ⟨haT, ?_⟩
  rw [haT] at hsb
  have : T.reverse.dropWhile pySpace = T.reverse := by
    refine hsb.eq_of_length ?_
    rw [haT] at l3
    simp [l3]
  exact this

/-- `strip()` is the identity on a string whose first character is
non-whitespace and whose tail ends in an already-stripped non-empty
string. -/
theorem pyStrip_head_tail {c : Char} {rest T : PyStr} (hc : pySpace c = false)
    (hT : pyStrip T = T) (hne : T ≠ []) :
    pyStrip (c :: (rest ++ T)) = c :: (rest ++ T) := by
  obtain ⟨h1, h2⟩ := pyStrip_eq_self_parts hT
  unfold pyStrip
  rw [dropWhile_cons_of_neg hc]
  match hrev : T.reverse with
  | [] => exact absurd (by simpa using congrArg List.reverse hrev) hne
  | hd :: tl =>
    have hhd : pySpace hd = false := head_neg_of_dropWhile_eq (by rw [← hrev]; exact h2)
    have e : (c :: (rest ++ T)).reverse = hd :: (tl ++ (rest.reverse ++ [c])) := by
      simp [List.reverse_append, hrev, List.append_assoc]
    rw [e, dropWhile_cons_of_neg hhd, ← e]
    simp

/-- `strip()` of a single leading space before an already-stripped string. -/
theorem pyStrip_space_cons {T : PyStr} (hT : pyStrip T = T) :
    pyStrip (' ' :: T) = T := by
  obtain ⟨h1, h2⟩ := pyStrip_eq_self_parts hT
  unfold pyStrip
  rw [List.dropWhile_cons]
  simp only [pySpace]
  rw [if_pos (by simp), h1, h2]
  simp

namespace GeminiService

/-- `BlogContent` dataclass from `src/services/gemini_service.py`. -/
structure BlogContent where
  title : PyStr
  content : PyStr
  tags : List PyStr
  summary : PyStr
  deriving Repr, DecidableEq

/-- The loop state of `GeminiService._parse_blog_response`'s `for` loop. -/
structure ParseState where
  title : PyStr
  content_lines : List PyStr
  tags : List PyStr
  in_content : Bool
  deriving Repr, DecidableEq

/-- One iteration of the `for line in lines` loop of
`GeminiService._parse_blog_response`. -/
def parseLine (st : ParseState) (line : PyStr) : ParseState :=
  let line_stripped := pyStrip line
  if pyStartswith line_stripped "제목:".data then
    { st with title := pyStrip (line_stripped.drop 3) }
  else if pyStartswith line_stripped "태그:".data then
    let tags_str := pyStrip (line_stripped.drop 3)
    let newTags := (pySplit ',' tags_str).map
        (fun t => (pyStrip t).filter (fun c => c ≠ '#'))
    { st with tags := newTags }
  else if line_stripped = [] then
    if st.in_content then { st with content_lines := st.content_lines ++ [[]] }
    else st
  else
    { st with in_content := true, content_lines := st.content_lines ++ [line] }

/-- The whole `for` loop of `_parse_blog_response`, starting from the
state set up before the loop (`title = default_topic`, empty
accumulators). -/
def parseLoop (lines : List PyStr) (default_topic : PyStr) : ParseState :=
  lines.foldl parseLine
    { title := default_topic, content_lines := [], tags := [], in_content := false }

/-- `GeminiService._parse_blog_response`, given the already-split lines
of `response.strip().split('\n')`.  Mirrors the post-processing after
the loop: join and strip the body, default the tags to the topic when
none were found, and build the truncated summary. -/
def parseBlogLines (lines : List PyStr) (default_topic : PyStr) : BlogContent :=
  let st := parseLoop lines default_topic
  let content := pyStrip (List.intercalate ['\n'] st.content_lines)
  let tags := if st.tags = [] then [default_topic] else st.tags
  let summary := if 200 < content.length then content.take 200 ++ "...".data else content
  { title := st.title, content := content, tags := tags, summary := summary }

/-- `GeminiService._parse_blog_response(response, default_topic)`. -/
def parse_blog_response (response : PyStr) (default_topic : PyStr) : BlogContent :=
  parseBlogLines (pySplit '\n' (pyStrip response)) default_topic

/-- The `'제목:'` marker of the line-oriented response format. -/
def titleMarker : PyStr := "제목:".data

/-- The `'태그:'` marker of the line-oriented response format. -/
def tagMarker : PyStr := "태그:".data

/-- Modelled from the spec: "a line beginning with a tag marker is
comma-split into tags (stripping any leading hash characters)" — the
spec's tag cleaning strips only a leading run of `#`, leaving interior
hash characters in place.  Compared below with the source's cleaning,
which is `t.strip().replace('#', '')`. -/
def specTagClean (t : PyStr) : PyStr :=
  (pyStrip t).dropWhile (fun c => c = '#')

/-- Once `in_content` is set, every further non-marker, already-stripped
line is appended verbatim to `content_lines` (a blank line is appended
as the empty string, which coincides with the line itself). -/
theorem parseLoop_append_content (st : ParseState) (ls : List PyStr)
    (hin : st.in_content = true)
    (h : ∀ l ∈ ls, pyStrip l = l ∧ pyStartswith l titleMarker = false ∧
        pyStartswith l tagMarker = false) :
    ls.foldl parseLine st =
      { st with content_lines := st.content_lines ++ ls, in_content := true } := by
  induction ls generalizing st with
  | nil =>
    cases st
    simp_all
  | cons l ls ih =>
    obtain ⟨hs, hm1, hm2⟩ := h l (by simp)
    have step : parseLine st l =
        { st with content_lines := st.content_lines ++ [l], in_content := true } := by
      unfold parseLine
      rw [hs]
      simp only [pyStartswith] at hm1 hm2
      simp only [pyStartswith, titleMarker, tagMarker] at *
      rw [if_neg (by simp [hm1]), if_neg (by simp [hm2])]
      by_cases hl : l = []
      · subst hl
        cases st
        simp_all
      · rw [if_neg hl]
    rw [List.foldl_cons, step, ih _ rfl (fun x hx => h x (by simp [hx]))]
    simp

/-- The effect of the loop body on a well-formed title-marker line. -/
theorem parseLine_title (st : ParseState) (T : PyStr) (hT : pyStrip T = T) (hne : T ≠ []) :
    parseLine st (titleMarker ++ ' ' :: T) = { st with title := T } := by
  have hstrip : pyStrip (titleMarker ++ ' ' :: T) = titleMarker ++ ' ' :: T :=
    @pyStrip_head_tail '제' ['목', ':', ' '] T (by decide) hT hne
  unfold parseLine
  rw [hstrip, if_pos (by rfl)]
  have hdrop : (titleMarker ++ ' ' :: T).drop 3 = ' ' :: T := rfl
  rw [hdrop, pyStrip_space_cons hT]

/-- The effect of the loop body on a well-formed tag-marker line. -/
theorem parseLine_tag (st : ParseState) (S : PyStr) (hS : pyStrip S = S) (hne : S ≠ []) :
    parseLine st (tagMarker ++ ' ' :: S) =
      { st with tags := ((pySplit ',' S).map (fun x => (pyStrip x).filter (fun c => c ≠ '#'))) } := by
  have hstrip : pyStrip (tagMarker ++ ' ' :: S) = tagMarker ++ ' ' :: S :=
    @pyStrip_head_tail '태' ['그', ':', ' '] S (by decide) hS hne
  unfold parseLine
  rw [hstrip, if_neg (fun h => by
    rw [show pyStartswith (tagMarker ++ ' ' :: S) "제목:".data = false from rfl] at h
    exact Bool.noConfusion h), if_pos (by rfl)]
  have hdrop : (tagMarker ++ ' ' :: S).drop 3 = ' ' :: S := rfl
  rw [hdrop, pyStrip_space_cons hS]

/-- The effect of the loop body on a non-blank, non-marker,
already-stripped body line. -/
theorem parseLine_body (st : ParseState) (l : PyStr) (hs : pyStrip l = l)
    (hm1 : pyStartswith l titleMarker = false) (hm2 : pyStartswith l tagMarker = false)
    (hl : l ≠ []) :
    parseLine st l = { st with in_content := true, content_lines := st.content_lines ++ [l] } := by
  unfold parseLine
  rw [hs]
  rw [if_neg (by simp only [titleMarker] at hm1; simp [hm1]),
    if_neg (by simp only [tagMarker] at hm2; simp [hm2]), if_neg hl]

/-- If no line carries the tag marker, the loop never touches `tags`. -/
theorem parseLoop_tags_of_no_marker (st : ParseState) (ls : List PyStr)
    (h : ∀ l ∈ ls, pyStartswith (pyStrip l) tagMarker = false) :
    (ls.foldl parseLine st).tags = st.tags := by
  induction ls generalizing st with
  | nil => rfl
  | cons l ls ih =>
    have hm := h l (by simp)
    have step : (parseLine st l).tags = st.tags := by
      unfold parseLine
      simp only [pyStartswith, tagMarker] at hm ⊢
      split
      · rfl
      · rw [if_neg (by simp [hm])]
        split
        · split <;> rfl
        · rfl
    rw [List.foldl_cons, ih _ (fun x hx => h x (by simp [hx])), step]

/-- **C4 (amended), theorem.** The response parser sets the title from
the line beginning with the title marker, splits the tag-marker line on
commas into tags with **all** hash characters removed (not only leading
ones), accumulates the other non-empty lines as body (preserving blank
lines within the body, dropping those before body content starts), and
defaults the tags to `[topic]` when no tag line is found, so the
returned tags list is always non-empty. -/
theorem parse_blog_response_contract :
    (∀ (r t : PyStr), (parse_blog_response r t).tags ≠ []) ∧
    (∀ (lines : List PyStr) (t : PyStr),
        (∀ l ∈ lines, pyStartswith (pyStrip l) tagMarker = false) →
        (parseBlogLines lines t).tags = [t]) ∧
    (∀ (T tagStr t : PyStr) (bodyLines : List PyStr),
        pyStrip T = T → T ≠ [] → pyStrip tagStr = tagStr → tagStr ≠ [] →
        (∀ l ∈ bodyLines, pyStrip l = l ∧ pyStartswith l titleMarker = false ∧
            pyStartswith l tagMarker = false) →
        (∀ h₀ ∈ bodyLines.head?, h₀ ≠ []) →
        (parseBlogLines ((titleMarker ++ ' ' :: T) ::
            (bodyLines ++ [tagMarker ++ ' ' :: tagStr])) t).title = T ∧
        (parseBlogLines ((titleMarker ++ ' ' :: T) ::
            (bodyLines ++ [tagMarker ++ ' ' :: tagStr])) t).content
          = pyStrip (List.intercalate ['\n'] bodyLines) ∧
        (parseBlogLines ((titleMarker ++ ' ' :: T) ::
            (bodyLines ++ [tagMarker ++ ' ' :: tagStr])) t).tags
          = (pySplit ',' tagStr).map (fun x => (pyStrip x).filter (fun c => c ≠ '#'))) := by
  refine ⟨?_, ?_, ?_⟩
  · intro r t
    unfold parse_blog_response parseBlogLines
    by_cases h : (parseLoop (pySplit '\n' (pyStrip r)) t).tags = [] <;> simp [h]
  · intro lines t h
    have htags : (parseLoop lines t).tags = [] := by
      unfold parseLoop
      rw [parseLoop_tags_of_no_marker _ _ h]
    simp [parseBlogLines, htags]
  · intro T tagStr t bodyLines hT hTne hS hSne hbody hhead
    have hloop : ∃ b, parseLoop ((titleMarker ++ ' ' :: T) ::
        (bodyLines ++ [tagMarker ++ ' ' :: tagStr])) t
        = { title := T, content_lines := bodyLines,
            tags := ((pySplit ',' tagStr).map (fun x => (pyStrip x).filter (fun c => c ≠ '#'))),
            in_content := b } := by
      rcases bodyLines with _ | ⟨b0, brest⟩
      · refine ⟨false, ?_⟩
        unfold parseLoop
        rw [List.foldl_cons, parseLine_title _ T hT hTne]
        simp only [List.nil_append]
        rw [List.foldl_cons, parseLine_tag _ tagStr hS hSne, List.foldl_nil]
      · refine ⟨true, ?_⟩
        obtain ⟨hs0, hm0a, hm0b⟩ := hbody b0 (by simp)
        have hb0 : b0 ≠ [] := hhead b0 (by simp)
        unfold parseLoop
        rw [List.foldl_cons, parseLine_title _ T hT hTne]
        rw [show (b0 :: brest) ++ [tagMarker ++ ' ' :: tagStr]
            = b0 :: (brest ++ [tagMarker ++ ' ' :: tagStr]) from by simp]
        rw [List.foldl_cons, parseLine_body _ b0 hs0 hm0a hm0b hb0]
        rw [List.foldl_append]
        rw [parseLoop_append_content _ brest rfl (fun x hx => hbody x (by simp [hx]))]
        rw [List.foldl_cons, parseLine_tag _ tagStr hS hSne, List.foldl_nil]
        simp
    obtain ⟨b, hb⟩ := hloop
    have hmapne : ((pySplit ',' tagStr).map
        (fun x => (pyStrip x).filter (fun c => c ≠ '#'))) ≠ [] := by
      intro hmap
      rw [List.map_eq_nil_iff] at hmap
      exact pySplit_ne_nil ',' tagStr hmap
    unfold parseBlogLines
    rw [hb]
    refine ⟨rfl, rfl, ?_⟩
    simp only [hmapne]
    simp

/-- **C4 counterexample.** On the response `"제목: T\nbody\n태그: C#"` the
code's parser removes the interior hash too (`"C#"` becomes `"C"`),
while the spec's "stripping any leading hash characters" would leave
`"C#"` unchanged — so the claim as stated is false. -/
theorem parse_blog_response_hash_counterexample :
    (parse_blog_response "제목: T\nbody\n태그: C#".data "topic".data).tags = [['C']] ∧
    (pySplit ',' "C#".data).map specTagClean = [['C', '#']] ∧
    ([['C']] : List PyStr) ≠ [['C', '#']] := by
  refine ⟨by decide, by decide, by decide⟩

/-- Witness for `parse_blog_response_contract` at concrete inputs. -/
theorem parse_blog_response_contract_witness :
    (parse_blog_response "x".data "topic".data).tags ≠ [] ∧
    (parseBlogLines ["hello".data] "top".data).tags = ["top".data] ∧
    ((parseBlogLines ((titleMarker ++ ' ' :: "T1".data) ::
        (["hello".data, [], "world".data] ++ [tagMarker ++ ' ' :: "#a, b".data])) "top".data).title
        = "T1".data ∧
     (parseBlogLines ((titleMarker ++ ' ' :: "T1".data) ::
        (["hello".data, [], "world".data] ++ [tagMarker ++ ' ' :: "#a, b".data])) "top".data).content
        = pyStrip (List.intercalate ['\n'] ["hello".data, [], "world".data]) ∧
     (parseBlogLines ((titleMarker ++ ' ' :: "T1".data) ::
        (["hello".data, [], "world".data] ++ [tagMarker ++ ' ' :: "#a, b".data])) "top".data).tags
        = (pySplit ',' "#a, b".data).map (fun x => (pyStrip x).filter (fun c => c ≠ '#'))) :=
  ⟨parse_blog_response_contract.1 "x".data "topic".data,
   parse_blog_response_contract.2.1 ["hello".data] "top".data (by decide),
   parse_blog_response_contract.2.2 "T1".data "#a, b".data "top".data
     ["hello".data, [], "world".data]
     (by decide) (by decide) (by decide) (by decide) (by decide) (by decide)⟩

/-! ### Error classification (`GeminiServiceError.from_exception` and
`GeminiService._extract_retry_seconds`)

The four retry-delay regexes are hand-translated.  `\s+`/`\s*` before a
non-whitespace continuation and `\d+` before a non-digit continuation
are matched greedily (equivalent to the regex backtracking semantics,
since no shorter match can enable the continuation); the alternation
`(?:seconds?|s)` is tried in the regex order where the consumed length
matters (pattern 2) and collapses to a head test where nothing follows
it in the pattern (patterns 1 and 3, all alternatives starting with
`'s'`). -/

/-- `int()` of a digit run. -/
def digitsToNat (ds : PyStr) : Nat :=
  ds.foldl (fun n c => 10 * n + (c.toNat - '0'.toNat)) 0

/-- Match `(\d+)` greedily at the start of `s`. -/
def matchDigits1 (s : PyStr) : Option (Nat × PyStr) :=
  let ds := s.takeWhile Char.isDigit
  if ds = [] then none else some (digitsToNat ds, s.dropWhile Char.isDigit)

/-- Match `\s+` at the start of `s`. -/
def matchWs1 (s : PyStr) : Option PyStr :=
  match s with
  | [] => none
  | c :: _ => if pySpace c then some (s.dropWhile pySpace) else none

/-- Match `\s*` at the start of `s`. -/
def dropWs (s : PyStr) : PyStr := s.dropWhile pySpace

/-- Match a literal at the start of `s`. -/
def matchLit (lit : PyStr) (s : PyStr) : Option PyStr :=
  if lit.isPrefixOf s then some (s.drop lit.length) else none

/-- `(?:seconds?|s)` with nothing after it in the pattern: every
alternative begins with `'s'`. -/
def secAlt (s : PyStr) : Bool :=
  pyStartswith s "s".data

/-- `retry\s+(?:in|after)\s+(\d+)\s*(?:seconds?|s)` anchored at the
start of `s`, returning the captured number. -/
def matchP1At (s : PyStr) : Option Nat :=
  (matchLit "retry".data s).bind fun r1 =>
  (matchWs1 r1).bind fun r2 =>
  (((matchLit "in".data r2) <|> (matchLit "after".data r2)).bind fun r3 =>
  (matchWs1 r3).bind fun r4 =>
  (matchDigits1 r4).bind fun p =>
  if secAlt (dropWs p.2) then some p.1 else none)

/-- `(\d+)\s*(?:seconds?|s)\s+(?:until|before)` anchored at the start of
`s`. -/
def matchP2At (s : PyStr) : Option Nat :=
  (matchDigits1 s).bind fun p =>
  let r2 := dropWs p.2
  let cont : PyStr → Option Nat := fun r =>
    (matchWs1 r).bind fun r4 =>
    if pyStartswith r4 "until".data || pyStartswith r4 "before".data then some p.1 else none
  ((matchLit "seconds".data r2).bind cont) <|> ((matchLit "second".data r2).bind cont)
    <|> ((matchLit "s".data r2).bind cont)

/-- `wait\s+(\d+)\s*(?:seconds?|s)` anchored at the start of `s`. -/
def matchP3At (s : PyStr) : Option Nat :=
  (matchLit "wait".data s).bind fun r1 =>
  (matchWs1 r1).bind fun r2 =>
  (matchDigits1 r2).bind fun p =>
  if secAlt (dropWs p.2) then some p.1 else none

/-- `try again in (\d+)` anchored at the start of `s`. -/
def matchP4At (s : PyStr) : Option Nat :=
  (matchLit "try again in ".data s).bind fun r =>
  (matchDigits1 r).map (fun p => p.1)

/-- `re.search`: try the anchored matcher at each position, leftmost
first. -/
def reSearch (f : PyStr → Option Nat) : PyStr → Option Nat
  | [] => f []
  | c :: t =>
    match f (c :: t) with
    | some n => some n
    | none => reSearch f t

/-- The `for pattern in patterns` loop shared (textually) by
`GeminiService._extract_retry_seconds` and
`GeminiServiceError.from_exception`: first pattern with a match wins. -/
def searchPatterns (s : PyStr) : Option Nat :=
  (reSearch matchP1At s) <|> (reSearch matchP2At s) <|> (reSearch matchP3At s)
    <|> (reSearch matchP4At s)

/-- `GeminiService._extract_retry_seconds(error_msg)`. -/
def extract_retry_seconds (error_msg : PyStr) : Option Nat :=
  searchPatterns (pyLower error_msg)

/-- The `GeminiErrorType` enum. -/
inductive GeminiErrorType where
  | API_KEY_INVALID
  | QUOTA_EXCEEDED
  | MODEL_NOT_FOUND
  | NETWORK_ERROR
  | UNKNOWN
  deriving Repr, DecidableEq

/-- The data carried by a `GeminiServiceError`. -/
structure GeminiServiceErrorData where
  message : PyStr
  error_type : GeminiErrorType
  retry_seconds : Nat
  deriving Repr, DecidableEq

/-- The credential-invalid keyword list of `from_exception`. -/
def apiKeyKeywords : List PyStr :=
  ["api_key_invalid".data, "invalid api key".data, "api key not valid".data,
    "permission denied".data]

/-- The quota keyword list of `from_exception` (also
`GeminiService._is_quota_error`). -/
def quotaKeywords : List PyStr :=
  ["429".data, "quota".data, "rate limit".data, "resource exhausted".data,
    "too many requests".data]

/-- The model-not-found keyword list of `from_exception`. -/
def modelKeywords : List PyStr :=
  ["404".data, "not found".data, "model not found".data, "does not exist".data]

/-- The network keyword list of `from_exception`. -/
def networkKeywords : List PyStr :=
  ["connection".data, "timeout".data, "network".data, "unreachable".data]

/-- The full credential-invalid test of `from_exception` (keyword list,
or `api` + `key` + (`invalid` | `expired`)). -/
def isApiKeyInvalidMsg (error_msg : PyStr) : Bool :=
  apiKeyKeywords.any (fun k => pyContains error_msg k)
    || (pyContains error_msg "api".data && pyContains error_msg "key".data
        && (pyContains error_msg "invalid".data || pyContains error_msg "expired".data))

/-- `GeminiServiceError.from_exception(error)`, on the exception's text. -/
def from_exception (error : PyStr) : GeminiServiceErrorData :=
  let error_msg := pyLower error
  if isApiKeyInvalidMsg error_msg then
    ⟨error, .API_KEY_INVALID, 0⟩
  else if quotaKeywords.any (fun k => pyContains error_msg k) then
    let retry_seconds := (searchPatterns error_msg).getD 0
    ⟨error, .QUOTA_EXCEEDED, if retry_seconds = 0 then 60 else retry_seconds⟩
  else if modelKeywords.any (fun k => pyContains error_msg k) then
    ⟨error, .MODEL_NOT_FOUND, 0⟩
  else if networkKeywords.any (fun k => pyContains error_msg k) then
    ⟨error, .NETWORK_ERROR, 0⟩
  else
    ⟨error, .UNKNOWN, 0⟩

/-- **C7 (amended), theorem.** For every provider exception text that
contains a quota keyword and does not first match the credential-invalid
keywords, the classifier returns the quota-exceeded kind, with
retry-after-seconds equal to the number parsed from the retry phrasings
when that number is non-zero, and equal to the default fallback of 60
when no phrasing is present or the parsed number is zero. -/
theorem from_exception_quota_retry (m : PyStr)
    (hq : quotaKeywords.any (fun k => pyContains (pyLower m) k) = true)
    (hc : isApiKeyInvalidMsg (pyLower m) = false) :
    (from_exception m).error_type = GeminiErrorType.QUOTA_EXCEEDED ∧
    (from_exception m).retry_seconds =
      (match extract_retry_seconds m with
        | some n => if n = 0 then 60 else n
        | none => 60) := by
  unfold from_exception
  simp only [hq, hc, Bool.false_eq_true, if_false, if_true, extract_retry_seconds]
  rcases hsp : searchPatterns (pyLower m) with _ | n <;> simp [hsp]

/-- **C7 counterexample.** `"429 quota: retry in 0 seconds"` carries the
phrasing `retry in N seconds` with parsed number 0, yet the classifier
returns retry-after 60, not the parsed 0 — so "retry-after-seconds equal
to the number parsed" is false as a universal statement. -/
theorem from_exception_zero_retry_counterexample :
    extract_retry_seconds "429 quota: retry in 0 seconds".data = some 0 ∧
    (from_exception "429 quota: retry in 0 seconds".data).error_type
      = GeminiErrorType.QUOTA_EXCEEDED ∧
    (from_exception "429 quota: retry in 0 seconds".data).retry_seconds = 60 ∧
    (0 : Nat) ≠ 60 := by
  refine ⟨by decide, by decide, by decide, by decide⟩

/-- Witness for `from_exception_quota_retry`: the spec's scenario B,
a quota error saying "retry in 30 seconds", is classified
quota-exceeded with retry-after 30. -/
theorem from_exception_quota_retry_witness :
    (quotaKeywords.any
      (fun k => pyContains (pyLower "Quota exceeded, retry in 30 seconds".data) k) = true) ∧
    (isApiKeyInvalidMsg (pyLower "Quota exceeded, retry in 30 seconds".data) = false) ∧
    (from_exception "Quota exceeded, retry in 30 seconds".data).error_type
      = GeminiErrorType.QUOTA_EXCEEDED ∧
    (from_exception "Quota exceeded, retry in 30 seconds".data).retry_seconds =
      (match extract_retry_seconds "Quota exceeded, retry in 30 seconds".data with
        | some n => if n = 0 then 60 else n
        | none => 60) ∧
    (from_exception "Quota exceeded, retry in 30 seconds".data).retry_seconds = 30 :=
  ⟨by decide, by decide,
    (from_exception_quota_retry "Quota exceeded, retry in 30 seconds".data
      (by decide) (by decide)).1,
    (from_exception_quota_retry "Quota exceeded, retry in 30 seconds".data
      (by decide) (by decide)).2,
    by decide⟩

/-! ### Rate limiting (`GeminiService._rate_limit`)

Deterministic real-time model: `time.time()` is a rational clock,
`time.sleep(s)` advances it by exactly `s`, and no time passes between
consecutive statements of `_rate_limit`. -/

/-- `GeminiService.RATE_LIMIT_DELAY` (minimum seconds between requests). -/
def RATE_LIMIT_DELAY : ℚ := 6

/-- `GeminiService.RPM_LIMIT` (maximum requests per minute). -/
def RPM_LIMIT : Nat := 10

/-- `GeminiService.RPM_WINDOW` (the sliding window, in seconds). -/
def RPM_WINDOW : ℚ := 60

/-- The mutable rate-limiter state of a `GeminiService` instance
(`_last_request_time`, `_request_times`). -/
structure RLState where
  last_request_time : ℚ
  request_times : List ℚ
  deriving Repr, DecidableEq

/-- `GeminiService._rate_limit(self)`, entered when the wall clock reads
`now`; returns the updated state (the recorded request time is the new
`last_request_time`). -/
def rate_limit (st : RLState) (now : ℚ) : RLState :=
  let times1 := st.request_times.filter (fun t => now - t < RPM_WINDOW)
  let pair :=
    if RPM_LIMIT ≤ times1.length then
      let oldest_request := times1.headD 0
      let wait_time := RPM_WINDOW - (now - oldest_request) + 1
      if 0 < wait_time then
        let now' := now + wait_time
        (now', times1.filter (fun t => now' - t < RPM_WINDOW))
      else (now, times1)
    else (now, times1)
  let now2 := pair.1
  let times2 := pair.2
  let elapsed := now2 - st.last_request_time
  let now3 := if elapsed < RATE_LIMIT_DELAY then now2 + (RATE_LIMIT_DELAY - elapsed) else now2
  { last_request_time := now3, request_times := times2 ++ [now3] }

/-- A sequence of `_rate_limit` calls at the given wall-clock arrival
instants, from a fresh service (`_last_request_time = 0`,
`_request_times = []`); also returns the list of recorded request
times, in order. -/
def runCalls (arrivals : List ℚ) : RLState × List ℚ :=
  arrivals.foldl
    (fun p a =>
      let st := rate_limit p.1 a
      (st, p.2 ++ [st.last_request_time]))
    (⟨0, []⟩, [])

/-- The minimum-spacing relation between consecutive recorded request
times. -/
def minGap (a b : ℚ) : Prop := a + RATE_LIMIT_DELAY ≤ b

instance : IsTrans ℚ minGap :=
  ⟨fun _ _ _ hab hbc => by
    unfold minGap RATE_LIMIT_DELAY at *
    linarith⟩

instance (a b : ℚ) : Decidable (minGap a b) := by
  unfold minGap
  infer_instance

/-- Whatever the arrival instant, `_rate_limit` records a request time
at least `RATE_LIMIT_DELAY` after the previous one. -/
theorem rate_limit_spacing (st : RLState) (now : ℚ) :
    st.last_request_time + RATE_LIMIT_DELAY ≤ (rate_limit st now).last_request_time := by
  simp only [rate_limit]
  generalize (if RPM_LIMIT ≤ (st.request_times.filter
    (fun t => now - t < RPM_WINDOW)).length then _ else _ : ℚ × List ℚ) = pair
  split <;> linarith

/-- The recorded-times trace of any call sequence is a `minGap` chain,
and the final `last_request_time` bounds the trace's last element. -/
theorem runCalls_aux (arrivals : List ℚ) (st : RLState) (rec : List ℚ)
    (hchain : List.Chain' minGap rec)
    (hlast : ∀ r ∈ rec.getLast?, r ≤ st.last_request_time) :
    List.Chain' minGap (arrivals.foldl
      (fun p a =>
        let st' := rate_limit p.1 a
        (st', p.2 ++ [st'.last_request_time])) (st, rec)).2 ∧
    (∀ r ∈ ((arrivals.foldl
      (fun p a =>
        let st' := rate_limit p.1 a
        (st', p.2 ++ [st'.last_request_time])) (st, rec)).2).getLast?,
      r ≤ ((arrivals.foldl
      (fun p a =>
        let st' := rate_limit p.1 a
        (st', p.2 ++ [st'.last_request_time])) (st, rec)).1).last_request_time) := by
  induction arrivals generalizing st rec with
  | nil => exact ⟨hchain, hlast⟩
  | cons a as ih =>
    rw [List.foldl_cons]
    refine ih (rate_limit st a) (rec ++ [(rate_limit st a).last_request_time]) ?_ ?_
    · rw [List.chain'_append]
      refine ⟨hchain, List.chain'_singleton _, ?_⟩
      intro x hx y hy
      simp only [List.head?_cons, Option.mem_def, Option.some.injEq] at hy
      subst hy
      have h1 := hlast x hx
      have h2 := rate_limit_spacing st a
      unfold minGap
      linarith
    · intro r hr
      rw [List.getLast?_concat] at hr
      simp only [Option.mem_def, Option.some.injEq] at hr
      subst hr
      exact le_refl _

/-- Along a `minGap` chain, the last element is at least
`6 * (length - 1)` above the first. -/
theorem chain_head_getLast (l : List ℚ) (h : List.Chain' minGap l) :
    ∀ x ∈ l.head?, ∀ y ∈ l.getLast?, x + 6 * ((l.length : ℚ) - 1) ≤ y := by
  induction l with
  | nil => intro x hx; simp at hx
  | cons a l ih =>
    intro x hx y hy
    simp only [List.head?_cons, Option.mem_def, Option.some.injEq] at hx
    subst hx
    match l with
    | [] =>
      simp only [List.getLast?_singleton, Option.mem_def, Option.some.injEq] at hy
      subst hy
      simp
    | b :: l' =>
      have hab : minGap a b := (List.chain'_cons.mp h).1
      have hch : List.Chain' minGap (b :: l') := (List.chain'_cons.mp h).2
      have hy' : y ∈ (b :: l').getLast? := by
        rw [List.getLast?_cons_cons] at hy
        exact hy
      have := ih hch b (by simp) y hy'
      unfold minGap RATE_LIMIT_DELAY at hab
      have hlen : ((a :: b :: l').length : ℚ) = ((b :: l').length : ℚ) + 1 := by
        push_cast [List.length_cons]
        ring
      rw [hlen]
      linarith

/-- A `minGap` chain has at most `RPM_LIMIT` elements inside any
60-second half-open window `(T - 60, T]`. -/
theorem chain_window_bound (l : List ℚ) (h : List.Chain' minGap l) (T : ℚ) :
    (l.filter (fun t => decide (T - RPM_WINDOW < t) && decide (t ≤ T))).length
      ≤ RPM_LIMIT := by
  by_contra hgt
  push_neg at hgt
  set fl := l.filter (fun t => decide (T - RPM_WINDOW < t) && decide (t ≤ T)) with hfl
  have hsub : List.Sublist fl l := List.filter_sublist l
  have hchain : List.Chain' minGap fl := h.sublist hsub
  have hne : fl ≠ [] := by
    intro hnil
    rw [hnil] at hgt
    simp [RPM_LIMIT] at hgt
  obtain ⟨x, hx⟩ : ∃ x, fl.head? = some x := ⟨fl.head hne, List.head?_eq_head hne⟩
  obtain ⟨y, hy⟩ : ∃ y, fl.getLast? = some y := ⟨fl.getLast hne, List.getLast?_eq_getLast fl hne⟩
  have hxl : x ∈ fl := List.mem_of_mem_head? hx
  have hyl : y ∈ fl := List.mem_of_mem_getLast? hy
  have hxw : T - RPM_WINDOW < x ∧ x ≤ T := by
    have := List.mem_filter.mp (hfl ▸ hxl)
    simpa using this.2
  have hyw : T - RPM_WINDOW < y ∧ y ≤ T := by
    have := List.mem_filter.mp (hfl ▸ hyl)
    simpa using this.2
  have hspan := chain_head_getLast fl hchain x hx y hy
  have hlen : (11 : ℚ) ≤ (fl.length : ℚ) := by
    have : 11 ≤ fl.length := by
      simp only [RPM_LIMIT] at hgt
      omega
    exact_mod_cast this
  unfold RPM_WINDOW at hxw hyw
  linarith

/-- **C5, theorem.** For every sequence of calls through
`_rate_limit`, consecutive recorded request times are at least the
configured minimum inter-call delay (6 seconds) apart, and no sliding
60-second window `(T - 60, T]` ever contains more than the configured
RPM ceiling (10) of recorded request times. -/
theorem rate_limit_contract (arrivals : List ℚ) :
    RATE_LIMIT_DELAY = 6 ∧ RPM_LIMIT = 10 ∧ RPM_WINDOW = 60 ∧
    List.Chain' (fun a b => a + RATE_LIMIT_DELAY ≤ b) (runCalls arrivals).2 ∧
    (∀ T : ℚ,
      ((runCalls arrivals).2.filter
        (fun t => decide (T - RPM_WINDOW < t) && decide (t ≤ T))).length ≤ RPM_LIMIT) := by
  have h := runCalls_aux arrivals ⟨0, []⟩ [] List.chain'_nil (by simp)
  refine ⟨rfl, rfl, rfl, h.1, fun T => chain_window_bound _ h.1 T⟩

end GeminiService

namespace NaverService

/-!
Embedding of `src/services/naver_service.py`.  The browser is an
abstract environment (`Driver`): which locators resolve, which element
interactions raise, what the current URL reads.  Every Selenium side
effect that actually happens is recorded in an `Action` trace, so that
ordering / injection-mode claims are statements about traces.
-/

/-- Selenium locator strategies used by the service. -/
inductive By where
  | css
  | xpath
  | className
  | id
  deriving Repr, DecidableEq

/-- A locator: strategy plus selector text. -/
abbrev Selector := By × String

/-- A located element, identified by the locator that found it. -/
abbrev Elem := Selector

/-- Observable Selenium side effects.  `typeChars` (synthetic
per-character typing) and `pressEscape` (defocus keystroke) are in the
observation vocabulary because the spec talks about them; the code
under `src/` never emits them. -/
inductive Action where
  | navigate (url : String)
  | switchFrame (frameId : String)
  | click (el : Elem)
  | clipboardCopy (text : String)
  | pasteKeys (el : Elem) (text : String)
  | typeChars (el : Elem) (text : String)
  | pressEscape (el : Elem)
  | sendKeys (el : Elem) (text : String)
  | pressEnter (el : Elem)
  deriving Repr, DecidableEq

/-- The abstract browser/page environment for one `create_post` /
`login` attempt. -/
structure Driver where
  /-- `driver.get(url)` raises with this text (if `some`). -/
  navErr : String → Option String
  /-- the `mainFrame` iframe is available to switch into. -/
  mainFrame : Bool
  /-- a bounded `WebDriverWait(...).until(...)` on this locator succeeds. -/
  hit : Selector → Bool
  /-- a bare `find_element` on this locator finds an element. -/
  found : Selector → Bool
  /-- exception text when `find_element` on this locator raises. -/
  findErr : Selector → String
  /-- interacting (click / key dispatch) with this element raises with
  this text (if `some`). -/
  actErr : Elem → Option String
  /-- `os.path.exists(path)`. -/
  fileExists : String → Bool
  /-- `driver.current_url` as read after publishing. -/
  currentUrl : String
  /-- `driver.current_url` as read after navigating to the blog home. -/
  blogHomeUrl : String
  /-- `driver.current_url` as read after submitting the login form. -/
  urlAfterLogin : String
  /-- names of the cookies present after submitting the login form. -/
  cookies : List String
  /-- the page source shows a captcha / step-up verification notice. -/
  pageSourceHasChallenge : Bool
  /-- `driver.current_url` after the operator completed the manual
  challenge. -/
  urlAfterManual : String
  /-- cookie names after the operator completed the manual challenge. -/
  cookiesAfterManual : List String

/-- `PostResult` dataclass. -/
structure PostResult where
  success : Bool
  post_url : Option String
  error_message : Option String
  deriving Repr, DecidableEq

/-- `NaverService.NAVER_LOGIN_URL`. -/
def NAVER_LOGIN_URL : String := "https://nid.naver.com/nidlogin.login"

/-- `NaverService.BLOG_HOME_URL`. -/
def BLOG_HOME_URL : String := "https://blog.naver.com"

/-- `NaverService.BLOG_WRITE_URL.format(blog_id=...)`. -/
def writeUrl (blog_id : Option String) : String :=
  "https://blog.naver.com/" ++ blog_id.getD "" ++ "/postwrite"

/-- A step's outcome: the Selenium actions that took effect, and either
normal return or a raised exception's text. -/
abbrev Step (α : Type) := List Action × Except String α

/-- `NaverService._clipboard_paste(element, text)`:
`pyperclip.copy(text)`, `element.click()`, `element.send_keys(CONTROL,
'v')`.  A raising element interaction aborts after the copy. -/
def clipboard_paste (d : Driver) (el : Elem) (text : String) : Step Unit :=
  match d.actErr el with
  | some e => ([Action.clipboardCopy text], Except.error e)
  | none => ([Action.clipboardCopy text, Action.click el, Action.pasteKeys el text], Except.ok ())

/-- `NaverService._switch_to_editor`: switch into `mainFrame` if
available; the absence of the frame is swallowed. -/
def switch_to_editor (d : Driver) : List Action :=
  if d.mainFrame then [Action.switchFrame "mainFrame"] else []

/-- The title locator cascade of `NaverService._input_title`. -/
def title_selectors : List Selector :=
  [(By.css, ".se-title-text"),
   (By.css, "textarea.se-textarea"),
   (By.className, "se-ff-nanumgothic"),
   (By.xpath, "//span[@class=\x27se-title-text\x27]//span")]

/-- `NaverService._input_title(title)`. -/
def input_title (d : Driver) (title : String) : Step Unit :=
  match title_selectors.find? (fun s => d.hit s) with
  | some el =>
    match d.actErr el with
    | some e => ([], Except.error ("제목 입력 실패: " ++ e))
    | none =>
      let cp := clipboard_paste d el title
      match cp.2 with
      | Except.error e => (Action.click el :: cp.1, Except.error ("제목 입력 실패: " ++ e))
      | Except.ok _ => (Action.click el :: cp.1, Except.ok ())
  | none => ([], Except.error "제목 입력란을 찾을 수 없습니다")

/-- The body locator cascade of `NaverService._input_content`. -/
def content_selectors : List Selector :=
  [(By.css, ".se-content"),
   (By.css, ".se-component-content"),
   (By.className, "se-text-paragraph")]

/-- `NaverService._input_content(content)`. -/
def input_content (d : Driver) (content : String) : Step Unit :=
  match content_selectors.find? (fun s => d.hit s) with
  | some el =>
    match d.actErr el with
    | some e => ([], Except.error ("본문 입력 실패: " ++ e))
    | none =>
      let cp := clipboard_paste d el content
      match cp.2 with
      | Except.error e => (Action.click el :: cp.1, Except.error ("본문 입력 실패: " ++ e))
      | Except.ok _ => (Action.click el :: cp.1, Except.ok ())
  | none => ([], Except.error "본문 입력란을 찾을 수 없습니다")

/-- The image-insert button locator. -/
def imageBtn : Elem := (By.css, "[data-name=\x27image\x27]")

/-- The native file-input locator. -/
def fileInput : Elem := (By.css, "input[type=\x27file\x27]")

/-- The `try` block of `NaverService._upload_image`. -/
def upload_image_body (d : Driver) (image_path : String) : Step Unit :=
  if d.found imageBtn = false then ([], Except.error (d.findErr imageBtn))
  else
    match d.actErr imageBtn with
    | some e => ([], Except.error e)
    | none =>
      if d.found fileInput = false then ([Action.click imageBtn], Except.error (d.findErr fileInput))
      else
        match d.actErr fileInput with
        | some e => ([Action.click imageBtn], Except.error e)
        | none =>
          ([Action.click imageBtn, Action.sendKeys fileInput image_path], Except.ok ())

/-- `NaverService._upload_image(image_path)`: a missing local file
returns early; any exception in the body is caught and logged, never
propagated. -/
def upload_image (d : Driver) (image_path : String) : List Action :=
  if d.fileExists image_path = false then []
  else (upload_image_body d image_path).1

/-- The tag input locator. -/
def tagInput : Elem := (By.css, ".post_tag input")

/-- The `try` block of `NaverService._input_tags`: locate the tag
field, then type each of the first 10 tags followed by Enter. -/
def input_tags_body (d : Driver) (tags : List String) : Step Unit :=
  if d.found tagInput = false then ([], Except.error (d.findErr tagInput))
  else
    match d.actErr tagInput with
    | some e => ([], Except.error e)
    | none =>
      ((tags.take 10).foldr
        (fun tag acc => Action.sendKeys tagInput tag :: Action.pressEnter tagInput :: acc)
        [], Except.ok ())

/-- `NaverService._input_tags(tags)`: any exception is caught and
logged ("태그 입력 실패 (무시)"), never propagated. -/
def input_tags (d : Driver) (tags : List String) : List Action :=
  (input_tags_body d tags).1

/-- The publish button locator cascade of `NaverService._publish_post`. -/
def publish_selectors : List Selector :=
  [(By.css, ".publish_btn"),
   (By.xpath, "//button[contains(text(), \x27발행\x27)]"),
   (By.css, "[data-name=\x27publish\x27]")]

/-- The confirm button locator. -/
def confirmBtn : Elem := (By.css, ".confirm_btn")

/-- `NaverService._publish_post()`: cascade-locate the publish button,
click it, click the optional confirm button (its absence or failure is
swallowed), and return `driver.current_url`. -/
def publish_post (d : Driver) : Step String :=
  match publish_selectors.find? (fun s => d.hit s) with
  | some btn =>
    match d.actErr btn with
    | some e => ([], Except.error ("발행 실패: " ++ e))
    | none =>
      let confirmActs :=
        if d.found confirmBtn then
          match d.actErr confirmBtn with
          | some _ => ([] : List Action)
          | none => [Action.click confirmBtn]
        else []
      (Action.click btn :: confirmActs, Except.ok d.currentUrl)
  | none => ([], Except.error "발행 버튼을 찾을 수 없습니다")

/-- `NaverService.create_post(title, content, tags, category, images)`:
navigate to the compose URL, switch into the editor, set the title,
best-effort upload images, set the body, best-effort type tags,
publish; any exception in this sequence is caught and converted into an
unsuccessful `PostResult` carrying the exception's text. -/
def create_post (d : Driver) (blog_id : Option String) (title content : String)
    (tags : Option (List String)) (_category : Option String)
    (images : Option (List String)) : PostResult × List Action :=
  let write_url := writeUrl blog_id
  match d.navErr write_url with
  | some e => (⟨false, none, some e⟩, [])
  | none =>
    let acts1 := Action.navigate write_url :: switch_to_editor d
    match input_title d title with
    | (ta, Except.error e) => (⟨false, none, some e⟩, acts1 ++ ta)
    | (ta, Except.ok _) =>
      let imgActs :=
        match images with
        | some imgs => imgs.foldl (fun acc p => acc ++ upload_image d p) []
        | none => []
      match input_content d content with
      | (ca, Except.error e) => (⟨false, none, some e⟩, acts1 ++ ta ++ imgActs ++ ca)
      | (ca, Except.ok _) =>
        let tagActs :=
          match tags with
          | some ts => if ts = [] then [] else input_tags d ts
          | none => []
        match publish_post d with
        | (pa, Except.error e) =>
          (⟨false, none, some e⟩, acts1 ++ ta ++ imgActs ++ ca ++ tagActs ++ pa)
        | (pa, Except.ok url) =>
          (⟨true, some url, none⟩, acts1 ++ ta ++ imgActs ++ ca ++ tagActs ++ pa)

/-- `NaverService._is_logged_in()`: fail if still on the login page,
else require one of the session cookies. -/
def is_logged_in (current_url : String) (cookies : List String) : Bool :=
  if pyContains current_url.data "nidlogin".data then false
  else cookies.contains "NID_AUT" || cookies.contains "NID_SES"

/-- The `for i, part in enumerate(parts)` loop of
`NaverService._get_blog_id`: the part after the first part containing
`"blog.naver.com"` that has a successor. -/
def findBlogIdPart : List PyStr → Option PyStr
  | [] => none
  | [_] => none
  | p :: nxt :: rest =>
    if pyContains p "blog.naver.com".data then some nxt
    else findBlogIdPart (nxt :: rest)

/-- The URL-parsing part of `NaverService._get_blog_id`: split the
current URL on `/`, take the segment after the host, cut at `?`. -/
def parse_blog_id (current_url : String) : Option String :=
  if pyContains current_url.data "/blog.naver.com/".data then
    match findBlogIdPart (pySplit '/' current_url.data) with
    | some nxt => some (String.mk ((pySplit '?' nxt).headD []))
    | none => none
  else none

/-- `NaverService._get_blog_id()`: navigate to the blog home and parse
the blog id out of the URL the browser lands on; any exception is
caught and logged. -/
def get_blog_id (d : Driver) : Option String × List Action :=
  match d.navErr BLOG_HOME_URL with
  | some _ => (none, [])
  | none => (parse_blog_id d.blogHomeUrl, [Action.navigate BLOG_HOME_URL])

/-- The outcome of `NaverService.login`: the returned value or raised
error, the `blog_id` attribute afterwards, and the action trace. -/
structure LoginResult where
  result : Except String Bool
  blog_id : Option String
  actions : List Action
  deriving Repr

/-- The login form's id field locator. -/
def idField : Elem := (By.id, "id")

/-- The login form's password field locator. -/
def pwField : Elem := (By.id, "pw")

/-- The login form's submit button locator. -/
def loginBtn : Elem := (By.id, "log.login")

/-- The form-filling half of `NaverService.login`: navigate to the
login page, wait for the id field, paste-inject id and password via the
clipboard, and click the submit button.  Errors carry the raw exception
text (the caller wraps them). -/
def login_fill (d : Driver) (user_id password : String) : Step Unit :=
  match d.navErr NAVER_LOGIN_URL with
  | some e => ([], Except.error e)
  | none =>
    if d.hit idField = false then
      ([Action.navigate NAVER_LOGIN_URL], Except.error (d.findErr idField))
    else
      let cp1 := clipboard_paste d idField user_id
      match cp1.2 with
      | Except.error e => (Action.navigate NAVER_LOGIN_URL :: cp1.1, Except.error e)
      | Except.ok _ =>
        if d.found pwField = false then
          (Action.navigate NAVER_LOGIN_URL :: cp1.1, Except.error (d.findErr pwField))
        else
          let cp2 := clipboard_paste d pwField password
          match cp2.2 with
          | Except.error e =>
            (Action.navigate NAVER_LOGIN_URL :: cp1.1 ++ cp2.1, Except.error e)
          | Except.ok _ =>
            if d.found loginBtn = false then
              (Action.navigate NAVER_LOGIN_URL :: cp1.1 ++ cp2.1,
                Except.error (d.findErr loginBtn))
            else
              match d.actErr loginBtn with
              | some e =>
                (Action.navigate NAVER_LOGIN_URL :: cp1.1 ++ cp2.1, Except.error e)
              | none =>
                (Action.navigate NAVER_LOGIN_URL :: cp1.1 ++ cp2.1 ++ [Action.click loginBtn],
                  Except.ok ())

/-- `NaverService.login(user_id, password)`: fill and submit the form
(any exception there is wrapped as "로그인 중 오류: ..."), then verify
success via URL/cookies; on a captcha / step-up page wait for the
operator and re-check once; on confirmed success fetch the blog id;
otherwise raise the credential failure. -/
def login (d : Driver) (user_id password : String) : LoginResult :=
  match login_fill d user_id password with
  | (as, Except.error e) => ⟨Except.error ("로그인 중 오류: " ++ e), none, as⟩
  | (as, Except.ok _) =>
    if is_logged_in d.urlAfterLogin d.cookies then
      let gb := get_blog_id d
      ⟨Except.ok true, gb.1, as ++ gb.2⟩
    else if d.pageSourceHasChallenge then
      if is_logged_in d.urlAfterManual d.cookiesAfterManual then
        let gb := get_blog_id d
        ⟨Except.ok true, gb.1, as ++ gb.2⟩
      else ⟨Except.error "로그인 실패: ID/PW를 확인해주세요", none, as⟩
    else ⟨Except.error "로그인 실패: ID/PW를 확인해주세요", none, as⟩

/-- A concrete fully-working page: every locator resolves, nothing
raises, and the blog home redirects to the blog of account `bob`. -/
def demoDriver : Driver where
  navErr := fun _ => none
  mainFrame := true
  hit := fun _ => true
  found := fun _ => true
  findErr := fun _ => "no such element"
  actErr := fun _ => none
  fileExists := fun _ => true
  currentUrl := "https://blog.naver.com/alice/223000000001"
  blogHomeUrl := "https://blog.naver.com/bob?Redirect=Log"
  urlAfterLogin := "https://www.naver.com/"
  cookies := ["NID_AUT"]
  pageSourceHasChallenge := false
  urlAfterManual := ""
  cookiesAfterManual := []

/-- Is this action a synthetic per-character typing injection? -/
def isTypeAction : Action → Bool
  | Action.typeChars _ _ => true
  | _ => false

/-- Is this action a defocus (escape) keystroke? -/
def isEscapeAction : Action → Bool
  | Action.pressEscape _ => true
  | _ => false

/-- Is this action a text injection into the body region? -/
def isBodyInput : Action → Bool
  | Action.pasteKeys el _ => content_selectors.contains el
  | Action.typeChars el _ => content_selectors.contains el
  | _ => false

/-- Is this action typing one tag into the tag field? -/
def isTagKeystroke : Action → Bool
  | Action.sendKeys el _ => el == tagInput
  | _ => false

theorem clipboard_paste_mem (d : Driver) (el : Elem) (text : String) :
    ∀ a ∈ (clipboard_paste d el text).1,
      a = Action.clipboardCopy text ∨ a = Action.click el ∨ a = Action.pasteKeys el text := by
  unfold clipboard_paste
  rcases d.actErr el with _ | e <;> simp

theorem input_title_mem (d : Driver) (title : String) :
    ∀ a ∈ (input_title d title).1,
      (∃ el, a = Action.click el) ∨ (a = Action.clipboardCopy title) ∨
      (∃ el, el ∈ title_selectors ∧ a = Action.pasteKeys el title) := by
  unfold input_title
  rcases hf : title_selectors.find? (fun s => d.hit s) with _ | el
  · simp
  · have hel : el ∈ title_selectors := List.mem_of_find?_eq_some hf
    rcases ha : d.actErr el with _ | e <;> simp only [ha, clipboard_paste]
    · intro a ha'
      simp only [List.mem_cons] at ha'
      rcases ha' with rfl | rfl | rfl | rfl | h
      · exact Or.inl ⟨el, rfl⟩
      · exact Or.inr (Or.inl rfl)
      · exact Or.inl ⟨el, rfl⟩
      · exact Or.inr (Or.inr ⟨el, hel, rfl⟩)
      · simp at h
    · simp

theorem input_content_mem (d : Driver) (content : String) :
    ∀ a ∈ (input_content d content).1,
      (∃ el, a = Action.click el) ∨ (a = Action.clipboardCopy content) ∨
      (∃ el, el ∈ content_selectors ∧ a = Action.pasteKeys el content) := by
  unfold input_content
  rcases hf : content_selectors.find? (fun s => d.hit s) with _ | el
  · simp
  · have hel : el ∈ content_selectors := List.mem_of_find?_eq_some hf
    rcases ha : d.actErr el with _ | e <;> simp only [ha, clipboard_paste]
    · intro a ha'
      simp only [List.mem_cons] at ha'
      rcases ha' with rfl | rfl | rfl | rfl | h
      · exact Or.inl ⟨el, rfl⟩
      · exact Or.inr (Or.inl rfl)
      · exact Or.inl ⟨el, rfl⟩
      · exact Or.inr (Or.inr ⟨el, hel, rfl⟩)
      · simp at h
    · simp

theorem upload_image_mem (d : Driver) (p : String) :
    ∀ a ∈ upload_image d p,
      a = Action.click imageBtn ∨ a = Action.sendKeys fileInput p := by
  unfold upload_image upload_image_body
  rcases d.fileExists p with _ | _ <;> try simp
  rcases d.found imageBtn with _ | _ <;> try simp
  rcases d.actErr imageBtn with _ | e <;> try simp
  rcases d.found fileInput with _ | _ <;> try simp
  rcases d.actErr fileInput with _ | e <;> simp

theorem tags_foldr_mem (el : Elem) (ts : List String) :
    ∀ a ∈ ts.foldr
      (fun tag acc => Action.sendKeys el tag :: Action.pressEnter el :: acc) [],
      (∃ t, a = Action.sendKeys el t) ∨ a = Action.pressEnter el := by
  induction ts with
  | nil => simp
  | cons t ts ih =>
    intro a ha
    simp only [List.foldr_cons, List.mem_cons] at ha
    rcases ha with rfl | rfl | ha
    · exact Or.inl ⟨t, rfl⟩
    · exact Or.inr rfl
    · exact ih a ha

theorem input_tags_mem (d : Driver) (ts : List String) :
    ∀ a ∈ input_tags d ts,
      (∃ t, a = Action.sendKeys tagInput t) ∨ a = Action.pressEnter tagInput := by
  unfold input_tags input_tags_body
  rcases d.found tagInput with _ | _ <;> try simp
  rcases d.actErr tagInput with _ | e
  · exact tags_foldr_mem tagInput (ts.take 10)
  · simp

theorem publish_post_mem (d : Driver) :
    ∀ a ∈ (publish_post d).1, ∃ el, a = Action.click el := by
  unfold publish_post
  rcases publish_selectors.find? (fun s => d.hit s) with _ | btn
  · simp
  · rcases ha : d.actErr btn with _ | e <;> simp only [ha]
    · rcases hcf : d.found confirmBtn with _ | _
      · intro a haa
        simp only [hcf, Bool.false_eq_true, if_false, List.mem_cons, List.not_mem_nil,
          or_false] at haa
        exact ⟨btn, haa⟩
      · rcases hce : d.actErr confirmBtn with _ | e
        · intro a haa
          simp only [hcf, hce, if_true, List.mem_cons, List.not_mem_nil, or_false] at haa
          rcases haa with rfl | rfl
          · exact ⟨btn, rfl⟩
          · exact ⟨confirmBtn, rfl⟩
        · intro a haa
          simp only [hcf, hce, if_true, List.mem_cons, List.not_mem_nil, or_false] at haa
          exact ⟨btn, haa⟩
    · simp

theorem switch_to_editor_mem (d : Driver) :
    ∀ a ∈ switch_to_editor d, a = Action.switchFrame "mainFrame" := by
  unfold switch_to_editor
  rcases d.mainFrame with _ | _ <;> simp

/-- Membership in the image-upload loop's accumulated actions. -/
theorem foldl_append_mem {α β : Type} (g : α → List β) (l : List α) (init : List β) :
    ∀ a ∈ l.foldl (fun acc p => acc ++ g p) init,
      a ∈ init ∨ ∃ p ∈ l, a ∈ g p := by
  induction l generalizing init with
  | nil => intro a ha; exact Or.inl ha
  | cons x xs ih =>
    intro a ha
    rcases ih (init ++ g x) a ha with h | h
    · rcases List.mem_append.mp h with h | h
      · exact Or.inl h
      · exact Or.inr ⟨x, by simp, h⟩
    · rcases h with ⟨p, hp, hg⟩
      exact Or.inr ⟨p, by simp [hp], hg⟩

/-- **C1, theorem.** When the page offers none of the title locator
cascade's selectors, `create_post` (having reached the title step)
returns an unsuccessful `PostResult` carrying the descriptive
title-field-not-found error, and no body injection is ever attempted. -/
theorem create_post_title_not_found (d : Driver) (blog_id : Option String)
    (title content : String) (tags : Option (List String)) (category : Option String)
    (images : Option (List String))
    (hnav : d.navErr (writeUrl blog_id) = none)
    (hmiss : ∀ s ∈ title_selectors, d.hit s = false) :
    (create_post d blog_id title content tags category images).1.success = false ∧
    (create_post d blog_id title content tags category images).1.error_message
      = some "제목 입력란을 찾을 수 없습니다" ∧
    ∀ a ∈ (create_post d blog_id title content tags category images).2,
      isBodyInput a = false := by
  have hfind : title_selectors.find? (fun s => d.hit s) = none :=
    List.find?_eq_none.mpr (fun s hs => by simp [hmiss s hs])
  have htitle : input_title d title = ([], Except.error "제목 입력란을 찾을 수 없습니다") := by
    unfold input_title
    rw [hfind]
  unfold create_post
  simp only [hnav, htitle]
  refine ⟨trivial, trivial, ?_⟩
  intro a ha
  simp only [List.append_nil, List.mem_cons] at ha
  rcases ha with rfl | ha
  · rfl
  · have := switch_to_editor_mem d a ha
    subst this
    rfl

/-- A page on which every title-cascade selector fails but everything
else works. -/
def noTitleDriver : Driver :=
  { demoDriver with hit := fun s => !(title_selectors.contains s) }

/-- Witness for `create_post_title_not_found` on a concrete page. -/
theorem create_post_title_not_found_witness :
    noTitleDriver.navErr (writeUrl (some "alice")) = none ∧
    (∀ s ∈ title_selectors, noTitleDriver.hit s = false) ∧
    ((create_post noTitleDriver (some "alice") "T" "B" none none none).1.success = false ∧
     (create_post noTitleDriver (some "alice") "T" "B" none none none).1.error_message
       = some "제목 입력란을 찾을 수 없습니다" ∧
     ∀ a ∈ (create_post noTitleDriver (some "alice") "T" "B" none none none).2,
       isBodyInput a = false) :=
  ⟨rfl, by decide,
    create_post_title_not_found noTitleDriver (some "alice") "T" "B" none none none
      rfl (by decide)⟩

theorem input_title_no_te (d : Driver) (title : String) :
    ∀ a ∈ (input_title d title).1, isTypeAction a = false ∧ isEscapeAction a = false := by
  intro a ha
  rcases input_title_mem d title a ha with ⟨el, rfl⟩ | rfl | ⟨el, _, rfl⟩ <;> exact ⟨rfl, rfl⟩

theorem input_content_no_te (d : Driver) (content : String) :
    ∀ a ∈ (input_content d content).1, isTypeAction a = false ∧ isEscapeAction a = false := by
  intro a ha
  rcases input_content_mem d content a ha with ⟨el, rfl⟩ | rfl | ⟨el, _, rfl⟩ <;> exact ⟨rfl, rfl⟩

theorem upload_image_no_te (d : Driver) (p : String) :
    ∀ a ∈ upload_image d p, isTypeAction a = false ∧ isEscapeAction a = false := by
  intro a ha
  rcases upload_image_mem d p a ha with rfl | rfl <;> exact ⟨rfl, rfl⟩

theorem input_tags_no_te (d : Driver) (ts : List String) :
    ∀ a ∈ input_tags d ts, isTypeAction a = false ∧ isEscapeAction a = false := by
  intro a ha
  rcases input_tags_mem d ts a ha with ⟨t, rfl⟩ | rfl <;> exact ⟨rfl, rfl⟩

theorem publish_post_no_te (d : Driver) :
    ∀ a ∈ (publish_post d).1, isTypeAction a = false ∧ isEscapeAction a = false := by
  intro a ha
  rcases publish_post_mem d a ha with ⟨el, rfl⟩
  exact ⟨rfl, rfl⟩

/-- Every action `create_post` can emit: no synthetic typing and no
escape keystroke, in any environment and on any input. -/
theorem create_post_no_te (d : Driver) (bid : Option String) (title content : String)
    (tags : Option (List String)) (cat : Option String) (images : Option (List String)) :
    ∀ a ∈ (create_post d bid title content tags cat images).2,
      isTypeAction a = false ∧ isEscapeAction a = false := by
  have happ : ∀ (A B : List Action),
      (∀ a ∈ A, isTypeAction a = false ∧ isEscapeAction a = false) →
      (∀ a ∈ B, isTypeAction a = false ∧ isEscapeAction a = false) →
      ∀ a ∈ A ++ B, isTypeAction a = false ∧ isEscapeAction a = false := by
    intro A B hA hB a ha
    rcases List.mem_append.mp ha with h | h
    · exact hA a h
    · exact hB a h
  have hacts1 : ∀ a ∈ Action.navigate (writeUrl bid) :: switch_to_editor d,
      isTypeAction a = false ∧ isEscapeAction a = false := by
    intro a ha
    rcases List.mem_cons.mp ha with rfl | ha
    · exact ⟨rfl, rfl⟩
    · have := switch_to_editor_mem d a ha
      subst this
      exact ⟨rfl, rfl⟩
  have himg : ∀ a ∈ (match images with
      | some imgs => imgs.foldl (fun acc p => acc ++ upload_image d p) []
      | none => []),
      isTypeAction a = false ∧ isEscapeAction a = false := by
    rcases images with _ | imgs
    · simp
    · intro a ha
      rcases foldl_append_mem (upload_image d) imgs [] a ha with h | ⟨p, _, hp⟩
      · simp at h
      · exact upload_image_no_te d p a hp
  have htagacts : ∀ a ∈ (match tags with
      | some ts => if ts = [] then [] else input_tags d ts
      | none => []),
      isTypeAction a = false ∧ isEscapeAction a = false := by
    rcases tags with _ | ts
    · simp
    · by_cases hts : ts = []
      · simp [hts]
      · simp only [if_neg hts]
        exact input_tags_no_te d ts
  intro a ha
  unfold create_post at ha
  rcases hn : d.navErr (writeUrl bid) with _ | e <;> simp only [hn] at ha
  case some => simp at ha
  rcases hti : input_title d title with ⟨ta, tr⟩
  simp only [hti] at ha
  have hta := input_title_no_te d title
  rw [hti] at hta
  rcases tr with e | u
  · exact happ _ _ hacts1 hta a ha
  · rcases hci : input_content d content with ⟨ca, cr⟩
    simp only [hci] at ha
    have hca := input_content_no_te d content
    rw [hci] at hca
    rcases cr with e | u2
    · exact happ _ _ (happ _ _ (happ _ _ hacts1 hta) himg) hca a ha
    · rcases hpp : publish_post d with ⟨pa, pr⟩
      simp only [hpp] at ha
      have hpa := publish_post_no_te d
      rw [hpp] at hpa
      rcases pr with e | url <;>
        exact happ _ _ (happ _ _ (happ _ _ (happ _ _ (happ _ _ hacts1 hta) himg) hca)
          htagacts) hpa a ha

theorem get_blog_id_mem (d : Driver) :
    ∀ a ∈ (get_blog_id d).2, a = Action.navigate BLOG_HOME_URL := by
  unfold get_blog_id
  rcases d.navErr BLOG_HOME_URL with _ | e <;> simp

/-- The possible traces of the form-filling half of `login`. -/
theorem login_fill_shape (d : Driver) (u p : String) :
    (login_fill d u p).1 = [] ∨
    (login_fill d u p).1 = [Action.navigate NAVER_LOGIN_URL] ∨
    (login_fill d u p).1 = Action.navigate NAVER_LOGIN_URL :: (clipboard_paste d idField u).1 ∨
    (login_fill d u p).1 = Action.navigate NAVER_LOGIN_URL :: (clipboard_paste d idField u).1
      ++ (clipboard_paste d pwField p).1 ∨
    (login_fill d u p).1 = Action.navigate NAVER_LOGIN_URL :: (clipboard_paste d idField u).1
      ++ (clipboard_paste d pwField p).1 ++ [Action.click loginBtn] := by
  unfold login_fill
  rcases d.navErr NAVER_LOGIN_URL with _ | e
  · by_cases hid : d.hit idField = false <;> simp only [hid, if_true, if_false]
    · exact Or.inr (Or.inl (by trivial))
    · rcases hc1 : (clipboard_paste d idField u).2 with e | u1 <;> simp only [hc1]
      · exact Or.inr (Or.inr (Or.inl (by trivial)))
      · by_cases hpw : d.found pwField = false <;> simp only [hpw, if_true, if_false]
        · exact Or.inr (Or.inr (Or.inl (by trivial)))
        · rcases hc2 : (clipboard_paste d pwField p).2 with e | u2 <;> simp only [hc2]
          · exact Or.inr (Or.inr (Or.inr (Or.inl (by trivial))))
          · by_cases hbtn : d.found loginBtn = false <;> simp only [hbtn, if_true, if_false]
            · exact Or.inr (Or.inr (Or.inr (Or.inl (by trivial))))
            · rcases d.actErr loginBtn with _ | e <;> simp only
              · exact Or.inr (Or.inr (Or.inr (Or.inr (by trivial))))
              · exact Or.inr (Or.inr (Or.inr (Or.inl (by trivial))))
  · exact Or.inl (by trivial)

/-- `login`'s trace is the form-filling trace, possibly followed by the
blog-id fetch. -/
theorem login_actions_cases (d : Driver) (u p : String) :
    (login d u p).actions = (login_fill d u p).1 ∨
    (login d u p).actions = (login_fill d u p).1 ++ (get_blog_id d).2 := by
  unfold login
  rcases hf : login_fill d u p with ⟨as, r⟩
  rcases r with e | u1 <;> simp only
  · exact Or.inl (by trivial)
  · by_cases h1 : is_logged_in d.urlAfterLogin d.cookies = true <;>
      simp only [h1, if_true, if_false]
    · exact Or.inr (by trivial)
    · by_cases h2 : d.pageSourceHasChallenge = true <;> simp only [h2, if_true, if_false]
      · by_cases h3 : is_logged_in d.urlAfterManual d.cookiesAfterManual = true <;>
          simp only [h3, if_true, if_false]
        · exact Or.inr (by trivial)
        · exact Or.inl (by trivial)
      · exact Or.inl (by trivial)

/-- Every action `login` can emit is a navigation, a click, a clipboard
copy, or a clipboard paste — never a synthetic typing or an escape. -/
theorem login_actions_mem (d : Driver) (u p : String) :
    ∀ a ∈ (login d u p).actions,
      (∃ url, a = Action.navigate url) ∨ (∃ el, a = Action.click el) ∨
      (∃ t, a = Action.clipboardCopy t) ∨ (∃ el t, a = Action.pasteKeys el t) := by
  have hcp : ∀ (el : Elem) (t : String), ∀ a ∈ (clipboard_paste d el t).1,
      (∃ url, a = Action.navigate url) ∨ (∃ el, a = Action.click el) ∨
      (∃ t, a = Action.clipboardCopy t) ∨ (∃ el t, a = Action.pasteKeys el t) := by
    intro el t a ha
    rcases clipboard_paste_mem d el t a ha with rfl | rfl | rfl
    · exact Or.inr (Or.inr (Or.inl ⟨t, rfl⟩))
    · exact Or.inr (Or.inl ⟨el, rfl⟩)
    · exact Or.inr (Or.inr (Or.inr ⟨el, t, rfl⟩))
  have hfill : ∀ a ∈ (login_fill d u p).1,
      (∃ url, a = Action.navigate url) ∨ (∃ el, a = Action.click el) ∨
      (∃ t, a = Action.clipboardCopy t) ∨ (∃ el t, a = Action.pasteKeys el t) := by
    intro a ha
    rcases login_fill_shape d u p with h | h | h | h | h <;> rw [h] at ha
    · simp at ha
    · simp only [List.mem_singleton] at ha
      subst ha
      exact Or.inl ⟨_, rfl⟩
    · rcases List.mem_cons.mp ha with rfl | ha'
      · exact Or.inl ⟨_, rfl⟩
      · exact hcp _ _ a ha'
    · rcases List.mem_cons.mp ha with rfl | ha'
      · exact Or.inl ⟨_, rfl⟩
      · rcases List.mem_append.mp ha' with h' | h'
        · exact hcp _ _ a h'
        · exact hcp _ _ a h'
    · rcases List.mem_cons.mp ha with rfl | ha'
      · exact Or.inl ⟨_, rfl⟩
      · rcases List.mem_append.mp ha' with h' | h'
        · rcases List.mem_append.mp h' with h2 | h2
          · exact hcp _ _ a h2
          · exact hcp _ _ a h2
        · simp only [List.mem_singleton] at h'
          subst h'
          exact Or.inr (Or.inl ⟨_, rfl⟩)
  intro a ha
  rcases login_actions_cases d u p with h | h <;> rw [h] at ha
  · exact hfill a ha
  · rcases List.mem_append.mp ha with h' | h'
    · exact hfill a h'
    · rw [get_blog_id_mem d a h']
      exact Or.inl ⟨_, rfl⟩

/-- A successful `_input_title` went through a cascade hit and a
clipboard paste of the title. -/
theorem input_title_ok_shape (d : Driver) (title : String) (ta : List Action)
    (h : (input_title d title).1 = ta ∧ ∃ u, (input_title d title).2 = Except.ok u) :
    ∃ el, el ∈ title_selectors ∧ d.actErr el = none ∧
      ta = [Action.click el, Action.clipboardCopy title, Action.click el,
        Action.pasteKeys el title] := by
  obtain ⟨hta, u, hok⟩ := h
  unfold input_title at hta hok
  rcases hf : title_selectors.find? (fun s => d.hit s) with _ | el <;>
    simp only [hf] at hta hok
  · simp at hok
  · rcases ha : d.actErr el with _ | e <;>
      simp only [ha, clipboard_paste] at hta hok
    · exact ⟨el, List.mem_of_find?_eq_some hf, ha, hta.symm⟩
    · simp at hok

/-- A successful `_input_content` went through a cascade hit and a
clipboard paste of the body. -/
theorem input_content_ok_shape (d : Driver) (content : String) (ca : List Action)
    (h : (input_content d content).1 = ca ∧ ∃ u, (input_content d content).2 = Except.ok u) :
    ∃ el, el ∈ content_selectors ∧ d.actErr el = none ∧
      ca = [Action.click el, Action.clipboardCopy content, Action.click el,
        Action.pasteKeys el content] := by
  obtain ⟨hca, u, hok⟩ := h
  unfold input_content at hca hok
  rcases hf : content_selectors.find? (fun s => d.hit s) with _ | el <;>
    simp only [hf] at hca hok
  · simp at hok
  · rcases ha : d.actErr el with _ | e <;>
      simp only [ha, clipboard_paste] at hca hok
    · exact ⟨el, List.mem_of_find?_eq_some hf, ha, hca.symm⟩
    · simp at hok

/-- A successful form fill pasted both credentials. -/
theorem login_fill_ok_shape (d : Driver) (u p : String)
    (h : ∃ x, (login_fill d u p).2 = Except.ok x) :
    d.actErr idField = none ∧ d.actErr pwField = none ∧
    (login_fill d u p).1 = Action.navigate NAVER_LOGIN_URL ::
      (clipboard_paste d idField u).1 ++ (clipboard_paste d pwField p).1
      ++ [Action.click loginBtn] := by
  obtain ⟨x, hok⟩ := h
  rcases hn : d.navErr NAVER_LOGIN_URL with _ | e
  · rcases hid : d.hit idField with _ | _
    · simp [login_fill, hn, hid] at hok
    · rcases ha1 : d.actErr idField with _ | e1
      · rcases hpw : d.found pwField with _ | _
        · simp [login_fill, clipboard_paste, hn, hid, ha1, hpw] at hok
        · rcases ha2 : d.actErr pwField with _ | e2
          · rcases hbtn : d.found loginBtn with _ | _
            · simp [login_fill, clipboard_paste, hn, hid, ha1, hpw, ha2, hbtn] at hok
            · rcases ha3 : d.actErr loginBtn with _ | e3
              · refine ⟨by rfl, by rfl, ?_⟩
                simp [login_fill, clipboard_paste, hn, hid, ha1, hpw, ha2, hbtn, ha3]
              · simp [login_fill, clipboard_paste, hn, hid, ha1, hpw, ha2, hbtn, ha3] at hok
          · simp [login_fill, clipboard_paste, hn, hid, ha1, hpw, ha2] at hok
      · simp [login_fill, clipboard_paste, hn, hid, ha1] at hok
  · simp [login_fill, hn] at hok

/-- A confirmed-success `login` pasted both credentials, clicked submit
and then fetched the blog id. -/
theorem login_ok_shape (d : Driver) (u p : String)
    (h : (login d u p).result = Except.ok true) :
    (∃ x, (login_fill d u p).2 = Except.ok x) ∧
    (login d u p).actions = (login_fill d u p).1 ++ (get_blog_id d).2 ∧
    (login d u p).blog_id = (get_blog_id d).1 := by
  unfold login at h ⊢
  rcases hf : login_fill d u p with ⟨as, r⟩
  rcases r with e | x <;> simp only [hf] at h ⊢
  · simp at h
  · refine ⟨⟨x, by trivial⟩, ?_⟩
    by_cases h1 : is_logged_in d.urlAfterLogin d.cookies = true <;>
      simp only [h1, if_true, if_false] at h ⊢
    · exact ⟨by trivial, by trivial⟩
    · by_cases h2 : d.pageSourceHasChallenge = true <;>
        simp only [h2, if_true, if_false] at h ⊢
      · by_cases h3 : is_logged_in d.urlAfterManual d.cookiesAfterManual = true <;>
          simp only [h3, if_true, if_false] at h ⊢
        · exact ⟨by trivial, by trivial⟩
        · simp at h
      · simp at h

/-- A successful `create_post` ran the title step and the body step,
in that order, with the title step's actions strictly before the body
step's actions in the trace. -/
theorem create_post_success_shape (d : Driver) (bid : Option String)
    (title content : String) (tags : Option (List String)) (cat : Option String)
    (images : Option (List String))
    (h : (create_post d bid title content tags cat images).1.success = true) :
    (∃ u, (input_title d title).2 = Except.ok u) ∧
    (∃ u, (input_content d content).2 = Except.ok u) ∧
    ∃ pre mid post, (create_post d bid title content tags cat images).2
      = pre ++ ((input_title d title).1 ++ (mid ++ ((input_content d content).1 ++ post))) := by
  unfold create_post at h ⊢
  rcases hn : d.navErr (writeUrl bid) with _ | e <;> simp only [hn] at h ⊢
  case some => simp at h
  rcases hti : input_title d title with ⟨ta, tr⟩
  simp only [hti] at h ⊢
  rcases tr with e | u
  · simp at h
  · rcases hci : input_content d content with ⟨ca, cr⟩
    simp only [hci] at h ⊢
    rcases cr with e | u2
    · simp at h
    · rcases hpp : publish_post d with ⟨pa, pr⟩
      simp only [hpp] at h ⊢
      rcases pr with e | url
      · simp at h
      · clear h
        refine ⟨⟨u, trivial⟩, ⟨u2, trivial⟩,
          Action.navigate (writeUrl bid) :: switch_to_editor d,
          (match images with
            | some imgs => imgs.foldl (fun acc p => acc ++ upload_image d p) []
            | none => []),
          ((match tags with
            | some ts => if ts = [] then [] else input_tags d ts
            | none => []) ++ pa), ?_⟩
        simp [List.append_assoc]

/-- **C2 (amended), theorem.** Both the editor's title and body are
injected with the very clipboard-paste mechanism used for the login
form fields; no synthetic per-character keystroke typing is ever
emitted, neither by `create_post` nor by `login`. -/
theorem injection_mode_contract :
    (∀ (d : Driver) (bid : Option String) (title content : String)
        (tags : Option (List String)) (cat : Option String) (images : Option (List String)),
      ∀ a ∈ (create_post d bid title content tags cat images).2, isTypeAction a = false) ∧
    (∀ (d : Driver) (u p : String), ∀ a ∈ (login d u p).actions, isTypeAction a = false) ∧
    (∀ (d : Driver) (bid : Option String) (title content : String)
        (tags : Option (List String)) (cat : Option String) (images : Option (List String)),
      (create_post d bid title content tags cat images).1.success = true →
      (∃ el ∈ title_selectors,
        Action.pasteKeys el title ∈ (create_post d bid title content tags cat images).2) ∧
      (∃ el ∈ content_selectors,
        Action.pasteKeys el content ∈ (create_post d bid title content tags cat images).2)) ∧
    (∀ (d : Driver) (u p : String), (login d u p).result = Except.ok true →
      Action.pasteKeys idField u ∈ (login d u p).actions ∧
      Action.pasteKeys pwField p ∈ (login d u p).actions) := by
  refine ⟨?_, ?_, ?_, ?_⟩
  · intro d bid title content tags cat im a ha
    exact (create_post_no_te d bid title content tags cat im a ha).1
  · intro d u p a ha
    rcases login_actions_mem d u p a ha with ⟨url, rfl⟩ | ⟨el, rfl⟩ | ⟨t, rfl⟩ | ⟨el, t, rfl⟩ <;>
      rfl
  · intro d bid title content tags cat im h
    obtain ⟨⟨u1, ht⟩, ⟨u2, hc⟩, pre, mid, post, htr⟩ :=
      create_post_success_shape d bid title content tags cat im h
    obtain ⟨tEl, htm, _, hta⟩ := input_title_ok_shape d title _ ⟨rfl, u1, ht⟩
    obtain ⟨bEl, hbm, _, hca⟩ := input_content_ok_shape d content _ ⟨rfl, u2, hc⟩
    constructor
    · refine ⟨tEl, htm, ?_⟩
      rw [htr]
      have hmem : Action.pasteKeys tEl title ∈ (input_title d title).1 := by
        rw [hta]; simp
      simp [List.mem_append, hmem]
    · refine ⟨bEl, hbm, ?_⟩
      rw [htr]
      have hmem : Action.pasteKeys bEl content ∈ (input_content d content).1 := by
        rw [hca]; simp
      simp [List.mem_append, hmem]
  · intro d u p h
    obtain ⟨hfok, hacts, _⟩ := login_ok_shape d u p h
    obtain ⟨ha1, ha2, hfill⟩ := login_fill_ok_shape d u p hfok
    rw [hacts, hfill]
    constructor <;> simp [clipboard_paste, ha1, ha2]

/-- **C2 counterexample.** On a fully-working concrete page, the trace
of a `create_post` run contains the clipboard-paste of the title and of
the body and no synthetic-typing action at all — refuting "title and
body are injected via synthetic keystroke typing, not clipboard
paste". -/
theorem injection_mode_counterexample :
    ((create_post demoDriver (some "alice") "T" "B" (some ["t1"]) none
      (some ["img.png"])).2.any isTypeAction) = false ∧
    Action.pasteKeys (By.css, ".se-title-text") "T"
      ∈ (create_post demoDriver (some "alice") "T" "B" (some ["t1"]) none
        (some ["img.png"])).2 ∧
    Action.pasteKeys (By.css, ".se-content") "B"
      ∈ (create_post demoDriver (some "alice") "T" "B" (some ["t1"]) none
        (some ["img.png"])).2 := by
  refine ⟨by decide, by decide, by decide⟩

/-- Witness for `injection_mode_contract` at a concrete page and run. -/
theorem injection_mode_contract_witness :
    (∀ a ∈ (create_post demoDriver (some "alice") "T" "B" none none none).2,
      isTypeAction a = false) ∧
    (∀ a ∈ (login demoDriver "alice" "pw").actions, isTypeAction a = false) ∧
    ((create_post demoDriver (some "alice") "T" "B" none none none).1.success = true) ∧
    ((∃ el ∈ title_selectors,
        Action.pasteKeys el "T" ∈ (create_post demoDriver (some "alice") "T" "B" none none none).2) ∧
     (∃ el ∈ content_selectors,
        Action.pasteKeys el "B" ∈ (create_post demoDriver (some "alice") "T" "B" none none none).2)) ∧
    ((login demoDriver "alice" "pw").result = Except.ok true) ∧
    (Action.pasteKeys idField "alice" ∈ (login demoDriver "alice" "pw").actions ∧
     Action.pasteKeys pwField "pw" ∈ (login demoDriver "alice" "pw").actions) :=
  ⟨injection_mode_contract.1 demoDriver (some "alice") "T" "B" none none none,
   injection_mode_contract.2.1 demoDriver "alice" "pw",
   by decide,
   injection_mode_contract.2.2.1 demoDriver (some "alice") "T" "B" none none none (by decide),
   by rfl,
   injection_mode_contract.2.2.2 demoDriver "alice" "pw" (by rfl)⟩

/-- **C3 (amended), theorem.** In every post attempt that sets both
title and body, the body paste occurs strictly after the title paste in
the action trace; however, no defocus (escape) action is ever issued —
between them or anywhere else. -/
theorem title_then_body_ordering (d : Driver) (bid : Option String)
    (title content : String) (tags : Option (List String)) (cat : Option String)
    (images : Option (List String))
    (h : (create_post d bid title content tags cat images).1.success = true) :
    (∃ tEl ∈ title_selectors, ∃ bEl ∈ content_selectors,
      List.Sublist [Action.pasteKeys tEl title, Action.pasteKeys bEl content]
        (create_post d bid title content tags cat images).2) ∧
    (∀ a ∈ (create_post d bid title content tags cat images).2,
      isEscapeAction a = false) := by
  obtain ⟨⟨u1, ht⟩, ⟨u2, hc⟩, pre, mid, post, htr⟩ :=
    create_post_success_shape d bid title content tags cat images h
  obtain ⟨tEl, htm, _, hta⟩ := input_title_ok_shape d title _ ⟨rfl, u1, ht⟩
  obtain ⟨bEl, hbm, _, hca⟩ := input_content_ok_shape d content _ ⟨rfl, u2, hc⟩
  constructor
  · refine ⟨tEl, htm, bEl, hbm, ?_⟩
    rw [htr]
    have h1 : List.Sublist [Action.pasteKeys tEl title] (input_title d title).1 := by
      rw [List.singleton_sublist, hta]
      simp
    have h2 : List.Sublist [Action.pasteKeys bEl content]
        (mid ++ ((input_content d content).1 ++ post)) := by
      rw [List.singleton_sublist]
      refine List.mem_append_right mid (List.mem_append_left post ?_)
      rw [hca]
      simp
    have hcombined := List.Sublist.append h1 h2
    have := List.Sublist.append (List.nil_sublist pre) hcombined
    simpa using this
  · intro a ha
    exact (create_post_no_te d bid title content tags cat images a ha).2

/-- **C3 counterexample.** On a fully-working concrete page both the
title and the body get set, yet the trace contains no escape keystroke
at all — refuting "a defocus (escape) action is issued between setting
the title and setting the body". -/
theorem defocus_counterexample :
    Action.pasteKeys (By.css, ".se-title-text") "T"
      ∈ (create_post demoDriver (some "alice") "T" "B" none none none).2 ∧
    Action.pasteKeys (By.css, ".se-content") "B"
      ∈ (create_post demoDriver (some "alice") "T" "B" none none none).2 ∧
    ((create_post demoDriver (some "alice") "T" "B" none none none).2.any
      isEscapeAction) = false := by
  refine ⟨by decide, by decide, by decide⟩

/-- Witness for `title_then_body_ordering` on a concrete page. -/
theorem title_then_body_ordering_witness :
    ((create_post demoDriver (some "bob") "T2" "B2" none none none).1.success = true) ∧
    ((∃ tEl ∈ title_selectors, ∃ bEl ∈ content_selectors,
       List.Sublist [Action.pasteKeys tEl "T2", Action.pasteKeys bEl "B2"]
         (create_post demoDriver (some "bob") "T2" "B2" none none none).2) ∧
     (∀ a ∈ (create_post demoDriver (some "bob") "T2" "B2" none none none).2,
       isEscapeAction a = false)) :=
  ⟨by decide,
   title_then_body_ordering demoDriver (some "bob") "T2" "B2" none none none (by decide)⟩

theorem tags_foldr_count (ts : List String) :
    ((ts.foldr
      (fun tag acc => Action.sendKeys tagInput tag :: Action.pressEnter tagInput :: acc)
      []).filter isTagKeystroke).length = ts.length := by
  induction ts with
  | nil => rfl
  | cons t ts ih =>
    simp only [List.foldr_cons, List.filter_cons]
    rw [show isTagKeystroke (Action.sendKeys tagInput t) = true from by
        simp [isTagKeystroke],
      show isTagKeystroke (Action.pressEnter tagInput) = false from rfl]
    simp [ih]

/-- `_input_tags` types at most 10 tags, whatever the environment. -/
theorem input_tags_count (d : Driver) (ts : List String) :
    ((input_tags d ts).filter isTagKeystroke).length ≤ 10 := by
  unfold input_tags input_tags_body
  rcases hfd : d.found tagInput with _ | _
  · simp [hfd]
  · rcases ha : d.actErr tagInput with _ | e
    · simp [hfd, ha, tags_foldr_count (ts.take 10), List.length_take]
    · simp [hfd, ha]

theorem input_title_ok_of_hit (d : Driver) (title : String)
    (ht : ∃ el, title_selectors.find? (fun s => d.hit s) = some el ∧ d.actErr el = none) :
    ∃ ta, input_title d title = (ta, Except.ok ()) ∧ ∀ a ∈ ta, isTagKeystroke a = false := by
  obtain ⟨el, hf, ha⟩ := ht
  unfold input_title
  rw [hf]
  simp only [ha, clipboard_paste]
  refine ⟨_, rfl, ?_⟩
  intro a haa
  simp only [List.mem_cons, List.not_mem_nil, or_false] at haa
  rcases haa with rfl | rfl | rfl | rfl <;> rfl

theorem input_content_ok_of_hit (d : Driver) (content : String)
    (hc : ∃ el, content_selectors.find? (fun s => d.hit s) = some el ∧ d.actErr el = none) :
    ∃ ca, input_content d content = (ca, Except.ok ()) ∧ ∀ a ∈ ca, isTagKeystroke a = false := by
  obtain ⟨el, hf, ha⟩ := hc
  unfold input_content
  rw [hf]
  simp only [ha, clipboard_paste]
  refine ⟨_, rfl, ?_⟩
  intro a haa
  simp only [List.mem_cons, List.not_mem_nil, or_false] at haa
  rcases haa with rfl | rfl | rfl | rfl <;> rfl

theorem publish_post_ok_of_hit (d : Driver)
    (hp : ∃ el, publish_selectors.find? (fun s => d.hit s) = some el ∧ d.actErr el = none) :
    ∃ pa url, publish_post d = (pa, Except.ok url) ∧ ∀ a ∈ pa, isTagKeystroke a = false := by
  obtain ⟨el, hf, ha⟩ := hp
  have hmem := publish_post_mem d
  unfold publish_post at hmem ⊢
  rw [hf] at hmem ⊢
  simp only [ha] at hmem ⊢
  refine ⟨_, d.currentUrl, rfl, ?_⟩
  intro a haa
  rcases hmem a haa with ⟨el', rfl⟩
  rfl

/-- **C9, theorem.** Failures in the tag-input or image-upload
sub-steps (missing local file, missing controls, raising interactions —
all unconstrained here) never abort the post: with title, body and
publish working, `create_post` still succeeds; and at most 10 tags are
ever typed, whatever the length of the tag list. -/
theorem best_effort_substeps (d : Driver) (bid : Option String)
    (title content : String) (ts : List String) (cat : Option String)
    (images : Option (List String))
    (hnav : d.navErr (writeUrl bid) = none)
    (ht : ∃ el, title_selectors.find? (fun s => d.hit s) = some el ∧ d.actErr el = none)
    (hc : ∃ el, content_selectors.find? (fun s => d.hit s) = some el ∧ d.actErr el = none)
    (hp : ∃ el, publish_selectors.find? (fun s => d.hit s) = some el ∧ d.actErr el = none) :
    (create_post d bid title content (some ts) cat images).1.success = true ∧
    ((create_post d bid title content (some ts) cat images).2.filter
      isTagKeystroke).length ≤ 10 := by
  obtain ⟨ta, hti, htano⟩ := input_title_ok_of_hit d title ht
  obtain ⟨ca, hci, hcano⟩ := input_content_ok_of_hit d content hc
  obtain ⟨pa, url, hpp, hpano⟩ := publish_post_ok_of_hit d hp
  have hnil : ∀ (l : List Action), (∀ a ∈ l, isTagKeystroke a = false) →
      l.filter isTagKeystroke = [] := by
    intro l hl
    rw [List.filter_eq_nil_iff]
    intro a haa
    simp [hl a haa]
  unfold create_post
  simp only [hnav, hti, hci, hpp]
  refine ⟨trivial, ?_⟩
  have hacts1 : (Action.navigate (writeUrl bid) :: switch_to_editor d).filter
      isTagKeystroke = [] := by
    refine hnil _ ?_
    intro a haa
    rcases List.mem_cons.mp haa with rfl | haa
    · rfl
    · rw [switch_to_editor_mem d a haa]
      rfl
  have himg : (match images with
      | some imgs => imgs.foldl (fun acc p => acc ++ upload_image d p) []
      | none => []).filter isTagKeystroke = [] := by
    refine hnil _ ?_
    intro a haa
    rcases images with _ | imgs
    · simp at haa
    · rcases foldl_append_mem (upload_image d) imgs [] a haa with h | ⟨p, _, hpp'⟩
      · simp at h
      · rcases upload_image_mem d p a hpp' with rfl | rfl
        · rfl
        · rfl
  have htagActs : ((if ts = [] then [] else input_tags d ts).filter
      isTagKeystroke).length ≤ 10 := by
    by_cases hts : ts = []
    · simp [hts]
    · rw [if_neg hts]
      exact input_tags_count d ts
  simp only [List.filter_append, List.length_append, hacts1, himg,
    hnil ta htano, hnil ca hcano, hnil pa hpano]
  simpa using htagActs

/-- A page where the tag field and image controls are missing and the
image file does not exist, but everything else works. -/
def faultyExtrasDriver : Driver :=
  { demoDriver with found := fun _ => false, fileExists := fun _ => false }

/-- Witness for `best_effort_substeps`: twelve tags, a missing image
file and missing tag/image controls still yield a successful post with
at most 10 typed tags. -/
theorem best_effort_substeps_witness :
    ((create_post faultyExtrasDriver (some "alice") "T" "B"
      (some ["1", "2", "3", "4", "5", "6", "7", "8", "9", "10", "11", "12"]) none
      (some ["img.png"])).1.success = true ∧
     ((create_post faultyExtrasDriver (some "alice") "T" "B"
      (some ["1", "2", "3", "4", "5", "6", "7", "8", "9", "10", "11", "12"]) none
      (some ["img.png"])).2.filter isTagKeystroke).length ≤ 10) :=
  best_effort_substeps faultyExtrasDriver (some "alice") "T" "B"
    ["1", "2", "3", "4", "5", "6", "7", "8", "9", "10", "11", "12"] none (some ["img.png"])
    rfl ⟨(By.css, ".se-title-text"), by decide, rfl⟩
    ⟨(By.css, ".se-content"), by decide, rfl⟩
    ⟨(By.css, ".publish_btn"), by decide, rfl⟩

/-- The environment raises only exceptions with non-empty text (true of
every Selenium exception the service can see). -/
def WfErrors (d : Driver) : Prop :=
  (∀ u e, d.navErr u = some e → e ≠ "") ∧
  (∀ el e, d.actErr el = some e → e ≠ "") ∧
  (∀ el, d.findErr el ≠ "")

theorem str_append_ne_empty (p e : String) (hp : p ≠ "") : p ++ e ≠ "" := by
  intro h
  apply hp
  have hd := congrArg String.data h
  rw [String.data_append] at hd
  rcases List.append_eq_nil.mp hd with ⟨h1, _⟩
  cases p
  cases e
  simp_all [String.data]

theorem input_title_error_msg (d : Driver) (title : String) (e : String)
    (h : (input_title d title).2 = Except.error e) : e ≠ "" := by
  unfold input_title at h
  rcases hf : title_selectors.find? (fun s => d.hit s) with _ | el <;> simp only [hf] at h
  · simp only [Except.error.injEq] at h
    subst h
    decide
  · rcases ha : d.actErr el with _ | e' <;> simp only [ha, clipboard_paste] at h
    · simp at h
    · simp only [Except.error.injEq] at h
      subst h
      exact str_append_ne_empty _ _ (by decide)

theorem input_content_error_msg (d : Driver) (content : String) (e : String)
    (h : (input_content d content).2 = Except.error e) : e ≠ "" := by
  unfold input_content at h
  rcases hf : content_selectors.find? (fun s => d.hit s) with _ | el <;> simp only [hf] at h
  · simp only [Except.error.injEq] at h
    subst h
    decide
  · rcases ha : d.actErr el with _ | e' <;> simp only [ha, clipboard_paste] at h
    · simp at h
    · simp only [Except.error.injEq] at h
      subst h
      exact str_append_ne_empty _ _ (by decide)

theorem publish_post_error_msg (d : Driver) (e : String)
    (h : (publish_post d).2 = Except.error e) : e ≠ "" := by
  unfold publish_post at h
  rcases hf : publish_selectors.find? (fun s => d.hit s) with _ | btn <;> simp only [hf] at h
  · simp only [Except.error.injEq] at h
    subst h
    decide
  · rcases ha : d.actErr btn with _ | e' <;> simp only [ha] at h
    · simp at h
    · simp only [Except.error.injEq] at h
      subst h
      exact str_append_ne_empty _ _ (by decide)

/-- **C10, theorem.** `create_post` never propagates an exception (it
is a total function into `PostResult`, mirroring the catch-all
handler): given that the environment's exception texts are non-empty,
every run either succeeds — success flag set, a post URL, no error
message — or fails with success flag cleared and a non-empty error
message. -/
theorem create_post_total (d : Driver) (bid : Option String) (title content : String)
    (tags : Option (List String)) (cat : Option String) (images : Option (List String))
    (hwf : WfErrors d) :
    ((create_post d bid title content tags cat images).1.success = true ∧
     (create_post d bid title content tags cat images).1.error_message = none ∧
     ∃ u, (create_post d bid title content tags cat images).1.post_url = some u) ∨
    ((create_post d bid title content tags cat images).1.success = false ∧
     ∃ m, (create_post d bid title content tags cat images).1.error_message = some m ∧
       m ≠ "") := by
  obtain ⟨hwnav, hwact, hwfind⟩ := hwf
  unfold create_post
  rcases hn : d.navErr (writeUrl bid) with _ | e <;> simp only [hn]
  case some =>
    exact Or.inr ⟨by trivial, e, by trivial, hwnav _ e hn⟩
  rcases hti : input_title d title with ⟨ta, tr⟩
  rcases tr with e | u
  · refine Or.inr ⟨rfl, e, rfl, ?_⟩
    exact input_title_error_msg d title e (by rw [hti])
  · rcases hci : input_content d content with ⟨ca, cr⟩
    rcases cr with e | u2
    · refine Or.inr ⟨rfl, e, rfl, ?_⟩
      exact input_content_error_msg d content e (by rw [hci])
    · rcases hpp : publish_post d with ⟨pa, pr⟩
      rcases pr with e | url
      · refine Or.inr ⟨rfl, e, rfl, ?_⟩
        exact publish_post_error_msg d e (by rw [hpp])
      · exact Or.inl ⟨rfl, rfl, url, rfl⟩

/-- Witness for `create_post_total` on a concrete page. -/
theorem create_post_total_witness :
    (((create_post demoDriver (some "alice") "T3" "B3" none none none).1.success = true ∧
      (create_post demoDriver (some "alice") "T3" "B3" none none none).1.error_message
        = none ∧
      ∃ u, (create_post demoDriver (some "alice") "T3" "B3" none none none).1.post_url
        = some u) ∨
     ((create_post demoDriver (some "alice") "T3" "B3" none none none).1.success = false ∧
      ∃ m, (create_post demoDriver (some "alice") "T3" "B3" none none none).1.error_message
        = some m ∧ m ≠ "")) :=
  create_post_total demoDriver (some "alice") "T3" "B3" none none none
    ⟨fun _ _ h => Option.noConfusion h, fun _ _ h => Option.noConfusion h,
      fun _ => by show ("no such element" : String) ≠ ""; decide⟩

theorem pySplit_append_sep (sep : Char) (xs ys : PyStr) (h : ∀ c ∈ xs, c ≠ sep) :
    pySplit sep (xs ++ sep :: ys) = xs :: pySplit sep ys := by
  induction xs with
  | nil => simp [pySplit]
  | cons x xs ih =>
    have hx : x ≠ sep := h x (by simp)
    simp only [List.cons_append, pySplit, List.append_eq]
    rw [if_neg hx, ih (fun c hc => h c (by simp [hc]))]

theorem pySplit_append_no_sep (sep : Char) (xs ys : PyStr) (h : ∀ c ∈ xs, c ≠ sep) :
    pySplit sep (xs ++ ys)
      = (xs ++ (pySplit sep ys).headD []) :: (pySplit sep ys).tail := by
  induction xs with
  | nil =>
    match hys : pySplit sep ys with
    | [] => exact absurd hys (pySplit_ne_nil sep ys)
    | h0 :: t => simp [hys]
  | cons x xs ih =>
    have hx : x ≠ sep := h x (by simp)
    simp only [List.cons_append, pySplit, List.append_eq]
    rw [if_neg hx, ih (fun c hc => h c (by simp [hc]))]

theorem pyContains_iff {h n : PyStr} : pyContains h n = true ↔ n <:+: h := by
  unfold pyContains
  rw [List.any_eq_true]
  constructor
  · rintro ⟨t, ht, hp⟩
    exact List.infix_iff_prefix_suffix.mpr
      ⟨t, List.isPrefixOf_iff_prefix.mp hp, (List.mem_tails t h).mp ht⟩
  · intro hinf
    obtain ⟨t, h2, h1⟩ := List.infix_iff_prefix_suffix.mp hinf
    exact ⟨t, (List.mem_tails t h).mpr h1, List.isPrefixOf_iff_prefix.mpr h2⟩

/-- The second component of `login_fill` depends only on the
environment, never on the credentials. -/
theorem login_fill_snd_const (d : Driver) (u1 p1 u2 p2 : String) :
    (login_fill d u1 p1).2 = (login_fill d u2 p2).2 := by
  unfold login_fill clipboard_paste
  rcases d.navErr NAVER_LOGIN_URL with _ | e
  · rcases d.hit idField with _ | _
    · rfl
    · rcases d.actErr idField with _ | e1
      · rcases d.found pwField with _ | _
        · rfl
        · rcases d.actErr pwField with _ | e2
          · rcases d.found loginBtn with _ | _
            · rfl
            · rcases d.actErr loginBtn with _ | e3 <;> rfl
          · rfl
      · rfl
  · rfl

theorem findBlogIdPart_cons_neg (p nxt : PyStr) (rest : List PyStr)
    (h : pyContains p "blog.naver.com".data = false) :
    findBlogIdPart (p :: nxt :: rest) = findBlogIdPart (nxt :: rest) := by
  rw [show findBlogIdPart (p :: nxt :: rest)
      = if pyContains p "blog.naver.com".data = true then some nxt
        else findBlogIdPart (nxt :: rest) from rfl]
  rw [if_neg (by simp [h])]

theorem findBlogIdPart_cons_pos (p nxt : PyStr) (rest : List PyStr)
    (h : pyContains p "blog.naver.com".data = true) :
    findBlogIdPart (p :: nxt :: rest) = some nxt := by
  rw [show findBlogIdPart (p :: nxt :: rest)
      = if pyContains p "blog.naver.com".data = true then some nxt
        else findBlogIdPart (nxt :: rest) from rfl]
  rw [if_pos h]

/-- **C6 (amended), theorem.** The blog id recorded by a confirmed
login is scraped from the URL the browser lands on after navigating to
the blog home — the path segment after the host, cut at `?` — and does
not depend on the account identifier at all. -/
theorem blog_id_scrape_contract :
    (∀ (d : Driver) (u1 p1 u2 p2 : String),
      (login d u1 p1).blog_id = (login d u2 p2).blog_id) ∧
    (∀ (d : Driver) (u p : String), (login d u p).result = Except.ok true →
      (login d u p).blog_id = (get_blog_id d).1) ∧
    (∀ (X q : String), (∀ c ∈ X.data, c ≠ '/' ∧ c ≠ '?') →
      parse_blog_id ("https://blog.naver.com/" ++ X ++ "?" ++ q) = some X) := by
  refine ⟨?_, ?_, ?_⟩
  · intro d u1 p1 u2 p2
    have hsnd := login_fill_snd_const d u1 p1 u2 p2
    unfold login
    rcases hf1 : login_fill d u1 p1 with ⟨as1, r1⟩
    rcases hf2 : login_fill d u2 p2 with ⟨as2, r2⟩
    rw [hf1, hf2] at hsnd
    simp only at hsnd
    subst hsnd
    rcases r1 with e | x
    · rfl
    · rcases is_logged_in d.urlAfterLogin d.cookies with _ | _
      · rcases d.pageSourceHasChallenge with _ | _
        · rfl
        · rcases is_logged_in d.urlAfterManual d.cookiesAfterManual with _ | _ <;> rfl
      · rfl
  · intro d u p h
    exact (login_ok_shape d u p h).2.2
  · intro X q hX
    have hX1 : ∀ c ∈ X.data, c ≠ '/' := fun c hc => (hX c hc).1
    have hX2 : ∀ c ∈ X.data, c ≠ '?' := fun c hc => (hX c hc).2
    obtain ⟨h0, t0, hq⟩ : ∃ h0 t0, pySplit '/' q.data = h0 :: t0 := by
      match hys : pySplit '/' q.data with
      | [] => exact absurd hys (pySplit_ne_nil _ _)
      | h0 :: t0 => exact ⟨h0, t0, rfl⟩
    have hsplitq : pySplit '/' ('?' :: q.data) = ('?' :: h0) :: t0 := by
      simp only [pySplit]
      rw [if_neg (by decide), hq]
    have hdata : ("https://blog.naver.com/" ++ X ++ "?" ++ q).data
        = "https://blog.naver.com/".data ++ (X.data ++ '?' :: q.data) := by
      simp [List.append_assoc]
    unfold parse_blog_id
    rw [hdata]
    have hcont : pyContains ("https://blog.naver.com/".data ++ (X.data ++ '?' :: q.data))
        "/blog.naver.com/".data = true := by
      rw [pyContains_iff]
      refine List.IsInfix.trans ?_ ((List.prefix_append _ _).isInfix)
      decide
    rw [if_pos hcont]
    have hshape : "https://blog.naver.com/".data ++ (X.data ++ '?' :: q.data)
        = "https:".data ++ '/' ::
          ('/' :: ("blog.naver.com".data ++ '/' :: (X.data ++ '?' :: q.data))) := rfl
    rw [hshape]
    rw [pySplit_append_sep '/' "https:".data _ (by decide)]
    rw [show pySplit '/' ('/' :: ("blog.naver.com".data ++ '/' :: (X.data ++ '?' :: q.data)))
        = [] :: pySplit '/' ("blog.naver.com".data ++ '/' :: (X.data ++ '?' :: q.data)) from by
      simp [pySplit]]
    rw [pySplit_append_sep '/' "blog.naver.com".data _ (by decide)]
    rw [pySplit_append_no_sep '/' X.data ('?' :: q.data) hX1]
    rw [hsplitq]
    rw [findBlogIdPart_cons_neg _ _ _ (by decide)]
    rw [findBlogIdPart_cons_neg _ _ _ (by decide)]
    rw [findBlogIdPart_cons_pos _ _ _ (by decide)]
    simp only [List.headD_cons, List.tail_cons]
    rw [pySplit_append_sep '?' X.data h0 hX2]
    simp only [List.headD_cons]

/-- **C6 counterexample.** On a page where the blog home redirects to
`https://blog.naver.com/bob?Redirect=Log`, a confirmed login as
`alice` records blog id `bob` — scraped from the URL, not equal to the
login id. -/
theorem blog_id_scraped_counterexample :
    (login demoDriver "alice" "pw").result = Except.ok true ∧
    (login demoDriver "alice" "pw").blog_id = some "bob" ∧
    (login demoDriver "alice" "pw").blog_id ≠ some "alice" := by
  refine ⟨by rfl, by decide, by decide⟩

/-- Witness for `blog_id_scrape_contract` at a concrete page. -/
theorem blog_id_scrape_contract_witness :
    ((login demoDriver "alice" "pw1").blog_id = (login demoDriver "carol" "pw2").blog_id) ∧
    ((login demoDriver "alice" "pw").result = Except.ok true) ∧
    ((login demoDriver "alice" "pw").blog_id = (get_blog_id demoDriver).1) ∧
    ((∀ c ∈ ("bob" : String).data, c ≠ '/' ∧ c ≠ '?') ∧
      parse_blog_id ("https://blog.naver.com/" ++ "bob" ++ "?" ++ "Redirect=Log")
        = some "bob") :=
  ⟨blog_id_scrape_contract.1 demoDriver "alice" "pw1" "carol" "pw2",
   by rfl,
   blog_id_scrape_contract.2.1 demoDriver "alice" "pw" (by rfl),
   by decide,
   blog_id_scrape_contract.2.2 "bob" "Redirect=Log" (by decide)⟩

end NaverService

namespace PostingEngine

/-!
Embedding of `src/core/posting_engine.py`'s `PostingEngine.run`.  Each
agent call is an environment-supplied outcome: normal return, a raised
`PostingEngineError`-convertible error, or an unexpected exception.
Wall-clock elapsed time is not modelled (`elapsed_time` is omitted from
the result structure; no claim touches it).
-/

/-- The `PostingStatus` enum. -/
inductive PostingStatus where
  | PENDING
  | COLLECTING_TRENDS
  | SELECTING_TOPIC
  | GENERATING_CONTENT
  | GENERATING_IMAGE
  | POSTING
  | COMPLETED
  | FAILED
  deriving Repr, DecidableEq

/-- The `PostingProgress` dataclass. -/
structure PostingProgress where
  status : PostingStatus
  current_step : Nat
  message : String
  topic : Option String
  title : Option String
  content_length : Nat
  image_path : Option String
  post_url : Option String
  error : Option String
  deriving Repr, DecidableEq

/-- The field defaults of `PostingProgress()`. -/
def initProgress : PostingProgress :=
  ⟨PostingStatus.PENDING, 0, "", none, none, 0, none, none, none⟩

/-- The `EngineResult` dataclass (without `elapsed_time`). -/
structure EngineResult where
  success : Bool
  post_url : Option String
  title : Option String
  topic : Option String
  content_length : Nat
  image_path : Option String
  error_message : Option String
  deriving Repr, DecidableEq

/-- What the content agent returned (`create_blog_content`). -/
structure ContentData where
  title : String
  content : String
  tags : List String
  image_prompt : String
  deriving Repr, DecidableEq

/-- What the posting agent returned (`post`). -/
structure AgentPostResult where
  success : Bool
  post_url : Option String
  error_message : Option String
  deriving Repr, DecidableEq

/-- Outcome of one stage call: normal return, an agent error the engine
classifies into a `PostingEngineError`, or an unexpected exception. -/
inductive StageOutcome (α : Type) where
  | ok (val : α)
  | agentErr (msg : String)
  | unexpected (msg : String)
  deriving Repr

/-- The environment of one `run()`: the cancellation flag observed at
the k-th `_check_stop`, and each agent call's outcome. -/
structure EngineEnv where
  stopAt : Nat → Bool
  trends : StageOutcome (List String)
  content : StageOutcome ContentData
  image : StageOutcome String
  post : StageOutcome AgentPostResult

/-- `PostingEngine._select_topic`: user keywords take precedence, then
a trending keyword containing the category's first path segment, then
the first trending keyword, then the category or a generic default. -/
def select_topic (keywords : List String) (category : String)
    (trending : List String) : String :=
  match keywords with
  | k :: _ => k
  | [] =>
    match trending with
    | [] => if category ≠ "직접입력" then category else "일상"
    | t0 :: _ =>
      match trending.find? (fun kw =>
        decide (category ≠ "직접입력")
          && pyContains kw.data ((pySplit '/' category.data).headD [])) with
      | some kw => kw
      | none => t0

/-- Python's `f"...{x}..."` of an optional string. -/
def optionStr : Option String → String
  | none => "None"
  | some s => s

/-- The `except PostingEngineError` handler of `run`: record the
failure, carry the partial topic/title into the result. -/
def failEngine (p : PostingProgress) (e : String) : EngineResult × PostingProgress :=
  (⟨false, none, p.title, p.topic, 0, none, some e⟩,
   { p with status := PostingStatus.FAILED, message := "오류 발생: " ++ e, error := some e })

/-- The `except Exception` handler of `run`: record the failure, but
the result carries no topic/title. -/
def failUnexpected (p : PostingProgress) (m : String) : EngineResult × PostingProgress :=
  (⟨false, none, none, none, 0, none, some ("예상치 못한 오류: " ++ m)⟩,
   { p with status := PostingStatus.FAILED, message := "예상치 못한 오류: " ++ m, error := some ("예상치 못한 오류: " ++ m) })

/-- Stage 5 (posting) and completion of `run`, shared by the image
branches; `stopIdx` is the index of the final `_check_stop`. -/
def runPost (env : EngineEnv) (stopIdx : Nat) (p : PostingProgress) (c : ContentData)
    (topic : String) (image_path : Option String) : EngineResult × PostingProgress :=
  let p8 := { p with status := PostingStatus.POSTING, current_step := 5, message := "네이버 블로그에 포스팅 중..." }
  if env.stopAt stopIdx then failEngine p8 "사용자에 의해 중단됨"
  else
    match env.post with
    | StageOutcome.unexpected m => failUnexpected p8 m
    | StageOutcome.agentErr m => failUnexpected p8 m
    | StageOutcome.ok pr =>
      if pr.success = false then
        failEngine p8 ("포스팅 실패: " ++ optionStr pr.error_message)
      else
        let p9 := { p8 with status := PostingStatus.COMPLETED, message := "포스팅 완료!", post_url := pr.post_url }
        (⟨true, pr.post_url, some c.title, some topic, c.content.length,
          image_path, none⟩, p9)

/-- `PostingEngine.run()`: the five-stage workflow with progress
updates, cooperative cancellation checks at stage boundaries, and the
two exception handlers.  Returns the result and the final progress
state. -/
def run (env : EngineEnv) (keywords : List String) (category : String)
    (use_image : Bool) : EngineResult × PostingProgress :=
  let p1 := { initProgress with status := PostingStatus.COLLECTING_TRENDS, current_step := 1, message := "트렌드 키워드 수집 중..." }
  if env.stopAt 0 then failEngine p1 "사용자에 의해 중단됨"
  else
    match env.trends with
    | StageOutcome.agentErr m => failUnexpected p1 m
    | StageOutcome.unexpected m => failUnexpected p1 m
    | StageOutcome.ok trending =>
      let p2 := { p1 with status := PostingStatus.SELECTING_TOPIC, current_step := 2, message := "포스팅 주제 선정 중..." }
      if env.stopAt 1 then failEngine p2 "사용자에 의해 중단됨"
      else
        let topic := select_topic keywords category trending
        let p3 := { p2 with message := "주제 선정 완료: " ++ topic, topic := some topic }
        let p4 := { p3 with status := PostingStatus.GENERATING_CONTENT, current_step := 3, message := "블로그 글 작성 중... (Gemini AI)" }
        if env.stopAt 2 then failEngine p4 "사용자에 의해 중단됨"
        else
          match env.content with
          | StageOutcome.agentErr m => failEngine p4 ("콘텐츠 생성 실패: " ++ m)
          | StageOutcome.unexpected m => failUnexpected p4 m
          | StageOutcome.ok c =>
            let p5 := { p4 with message := "글 작성 완료: " ++ c.title, title := some c.title, content_length := c.content.length }
            if use_image then
              let p6 := { p5 with status := PostingStatus.GENERATING_IMAGE, current_step := 4, message := "이미지 생성 중... (Pollinations AI)" }
              if env.stopAt 3 then failEngine p6 "사용자에 의해 중단됨"
              else
                match env.image with
                | StageOutcome.unexpected m => failUnexpected p6 m
                | StageOutcome.agentErr _ =>
                  let p7 := { p6 with message := "이미지 생성 완료", image_path := none }
                  runPost env 4 p7 c topic none
                | StageOutcome.ok path =>
                  let p7 := { p6 with message := "이미지 생성 완료", image_path := some path }
                  runPost env 4 p7 c topic (some path)
            else
              let p6 := { p5 with status := PostingStatus.GENERATING_IMAGE, current_step := 4, message := "이미지 생성 건너뜀 (비활성화)" }
              runPost env 3 p6 c topic none

/-- Every run is one of: an engine-classified failure, an
unexpected-exception failure, or a success. -/
theorem run_cases (env : EngineEnv) (keywords : List String) (category : String)
    (use_image : Bool) :
    (∃ p e, run env keywords category use_image = failEngine p e) ∨
    (∃ p m, run env keywords category use_image = failUnexpected p m) ∨
    (run env keywords category use_image).1.success = true := by
  unfold run runPost
  rcases env.stopAt 0 with _ | _
  · rcases env.trends with trending | m | m
    · rcases env.stopAt 1 with _ | _
      · rcases env.stopAt 2 with _ | _
        · rcases env.content with c | m | m
          · have hpost : ∀ (stopIdx : Nat) (p : PostingProgress) (topic : String)
                (image_path : Option String),
                (∃ q e, runPost env stopIdx p c topic image_path = failEngine q e) ∨
                (∃ q m, runPost env stopIdx p c topic image_path = failUnexpected q m) ∨
                (runPost env stopIdx p c topic image_path).1.success = true := by
              intro stopIdx p topic image_path
              unfold runPost
              rcases env.stopAt stopIdx with _ | _
              · rcases hpo : env.post with pr | m | m
                · rcases pr with ⟨psucc, purl, perr⟩
                  rcases psucc with _ | _
                  · exact Or.inl ⟨_, _, rfl⟩
                  · exact Or.inr (Or.inr rfl)
                · exact Or.inr (Or.inl ⟨_, _, rfl⟩)
                · exact Or.inr (Or.inl ⟨_, _, rfl⟩)
              · exact Or.inl ⟨_, _, rfl⟩
            rcases use_image with _ | _
            · exact hpost _ _ _ _
            · rcases env.stopAt 3 with _ | _
              · rcases env.image with path | m | m
                · exact hpost _ _ _ _
                · exact hpost _ _ _ _
                · exact Or.inr (Or.inl ⟨_, _, rfl⟩)
              · exact Or.inl ⟨_, _, rfl⟩
          · exact Or.inl ⟨_, _, rfl⟩
          · exact Or.inr (Or.inl ⟨_, _, rfl⟩)
        · exact Or.inl ⟨_, _, rfl⟩
      · exact Or.inl ⟨_, _, rfl⟩
    · exact Or.inr (Or.inl ⟨_, _, rfl⟩)
    · exact Or.inr (Or.inl ⟨_, _, rfl⟩)
  · exact Or.inl ⟨_, _, rfl⟩

/-- **C8 (amended), theorem.** Every failed run ends with the progress
in the `FAILED` state, and: when the failure is an engine-classified
error, the result carries the partial progress (its topic and title
equal the progress's recorded topic and title, and its error message is
recorded in the progress); when the failure is an unexpected exception,
the result's topic and title are empty and its error message carries
the "예상치 못한 오류: " prefix. -/
theorem run_failed_carries_progress (env : EngineEnv) (keywords : List String)
    (category : String) (use_image : Bool)
    (h : (run env keywords category use_image).1.success = false) :
    (run env keywords category use_image).2.status = PostingStatus.FAILED ∧
    (((run env keywords category use_image).1.topic
        = (run env keywords category use_image).2.topic ∧
      (run env keywords category use_image).1.title
        = (run env keywords category use_image).2.title ∧
      ∃ m, (run env keywords category use_image).1.error_message = some m ∧
        (run env keywords category use_image).2.error = some m) ∨
     ((run env keywords category use_image).1.topic = none ∧
      (run env keywords category use_image).1.title = none ∧
      ∃ m, (run env keywords category use_image).1.error_message
        = some ("예상치 못한 오류: " ++ m))) := by
  rcases run_cases env keywords category use_image with ⟨p, e, heq⟩ | ⟨p, m, heq⟩ | hs
  · rw [heq]
    exact ⟨rfl, Or.inl ⟨rfl, rfl, e, rfl, rfl⟩⟩
  · rw [heq]
    exact ⟨rfl, Or.inr ⟨rfl, rfl, m, rfl⟩⟩
  · rw [hs] at h
    exact absurd h (by simp)

/-- A run whose content stage raises an unexpected exception after the
topic was selected. -/
def unexpectedContentEnv : EngineEnv :=
  ⟨fun _ => false, StageOutcome.ok [], StageOutcome.unexpected "boom",
    StageOutcome.ok "img.png", StageOutcome.ok ⟨true, some "url", none⟩⟩

/-- **C8 counterexample.** With the topic `X` already recorded in the
progress, an unexpected error in the content stage yields a failed
result whose `topic` is `None` — the partial progress is not carried,
refuting "for every error, whether classified or unexpected". -/
theorem run_partial_progress_counterexample :
    (run unexpectedContentEnv ["X"] "직접입력" false).1.success = false ∧
    (run unexpectedContentEnv ["X"] "직접입력" false).2.topic = some "X" ∧
    (run unexpectedContentEnv ["X"] "직접입력" false).1.topic = none ∧
    some "X" ≠ (none : Option String) := by
  refine ⟨by rfl, by rfl, by rfl, by decide⟩

/-- Witness for `run_failed_carries_progress` on a concrete failing
run. -/
theorem run_failed_carries_progress_witness :
    ((run unexpectedContentEnv ["X"] "직접입력" false).1.success = false) ∧
    ((run unexpectedContentEnv ["X"] "직접입력" false).2.status = PostingStatus.FAILED ∧
     (((run unexpectedContentEnv ["X"] "직접입력" false).1.topic
         = (run unexpectedContentEnv ["X"] "직접입력" false).2.topic ∧
       (run unexpectedContentEnv ["X"] "직접입력" false).1.title
         = (run unexpectedContentEnv ["X"] "직접입력" false).2.title ∧
       ∃ m, (run unexpectedContentEnv ["X"] "직접입력" false).1.error_message = some m ∧
         (run unexpectedContentEnv ["X"] "직접입력" false).2.error = some m) ∨
      ((run unexpectedContentEnv ["X"] "직접입력" false).1.topic = none ∧
       (run unexpectedContentEnv ["X"] "직접입력" false).1.title = none ∧
       ∃ m, (run unexpectedContentEnv ["X"] "직접입력" false).1.error_message
         = some ("예상치 못한 오류: " ++ m)))) :=
  ⟨by rfl, run_failed_carries_progress unexpectedContentEnv ["X"] "직접입력" false (by rfl)⟩

end PostingEngine
